import Mathlib

/-!
Shallow embedding of the Markdown profile parser, HTML renderer and
section merge engine of the regis_std repository
(scripts/sync-to-portfolio.py and scripts/process_csv.py), together with
proofs settling the frozen claims about it.

Python strings are modelled as Lean `String` viewed through its list of
characters; Python `str.split`, `str.strip`, regular-expression search and
`re.sub` are modelled by explicit recursive scanners over `List Char`
mirroring the leftmost / lazy / greedy semantics the scripts rely on.
-/

namespace Regis

/-- Python `str.strip()` (both-ends whitespace strip) on a char list. -/
def stripChars (l : List Char) : List Char :=
  ((l.dropWhile Char.isWhitespace).reverse.dropWhile Char.isWhitespace).reverse

/-- Python `str.rstrip()` on a char list. -/
def rstripChars (l : List Char) : List Char :=
  (l.reverse.dropWhile Char.isWhitespace).reverse

/-- Python `str.strip()` on strings. -/
def pyStrip (s : String) : String := ⟨stripChars s.data⟩

/-- Python `str.rstrip()` on strings. -/
def pyRstrip (s : String) : String := ⟨rstripChars s.data⟩

/-- Python `str.lower()` (ASCII case folding, which is all this code base uses). -/
def pyLower (s : String) : String := ⟨s.data.map Char.toLower⟩

/-- Helper for Python `str.title()`: the flag records whether the previous
character was alphabetic. -/
def titleChars : Bool → List Char → List Char
  | _, [] => []
  | prev, c :: cs =>
    if c.isAlpha then (if prev then c.toLower else c.toUpper) :: titleChars true cs
    else c :: titleChars false cs

/-- Python `str.title()`. -/
def pyTitle (s : String) : String := ⟨titleChars false s.data⟩

/-- Boolean list prefix test (used to model Python `str.startswith` and as
the primitive of every regex-style scanner below). -/
def startsL : List Char → List Char → Bool
  | [], _ => true
  | _ :: _, [] => false
  | p :: ps, c :: cs => p == c && startsL ps cs

/-- Python `str.startswith`. -/
def pyStartsWith (p s : String) : Bool := startsL p.data s.data

/-- Python `str.endswith`. -/
def pyEndsWith (p s : String) : Bool := startsL p.data.reverse s.data.reverse

/-- Python slicing `s[n:]` (strings index by code points, as Lean char lists do). -/
def strDrop (s : String) (n : Nat) : String := ⟨s.data.drop n⟩

/-- Python slicing `s[:-n]`. -/
def strDropRight (s : String) (n : Nat) : String := ⟨s.data.take (s.data.length - n)⟩

/-- Helper for splitting on a separator character; `acc` holds the current
chunk reversed. -/
def splitSepAux (sep : Char) : List Char → List Char → List (List Char)
  | acc, [] => [acc.reverse]
  | acc, c :: cs =>
    if c == sep then acc.reverse :: splitSepAux sep [] cs
    else splitSepAux sep (c :: acc) cs

/-- Python `str.split(sep)` for a one-character separator
(`"".split(sep) = [""]`, empty chunks kept). -/
def pySplitChar (sep : Char) (s : String) : List String :=
  (splitSepAux sep [] s.data).map fun l => ⟨l⟩

/-- Python `str.split('\n')`. -/
def pySplitNl (s : String) : List String := pySplitChar '\n' s

/-- Python `sep.join(xs)`. -/
def pyJoin (sep : String) : List String → String
  | [] => ""
  | [x] => x
  | x :: y :: xs => x ++ sep ++ pyJoin sep (y :: xs)

/-- Leftmost occurrence of a (nonempty) pattern: returns the text before the
occurrence and the text after it.  Models Python `str.split(pat, 1)` /
`re.search` of a literal pattern. -/
def findSplit (pat : List Char) : List Char → Option (List Char × List Char)
  | [] => none
  | c :: cs =>
    if startsL pat (c :: cs) then some ([], (c :: cs).drop pat.length)
    else (findSplit pat cs).map fun x => (c :: x.1, x.2)

/-- Python `needle in haystack` (substring test; the scripts never use it
with an empty needle, for which Python would answer true on ""). -/
def pyIn (needle hay : String) : Bool := (findSplit needle.data hay.data).isSome

/-- Generic left-to-right replace scanner modelling `re.sub`: at each
position the match function is tried on the remaining suffix; on
`some (n, out)` the match consumed `n + 1` characters which are replaced by
`out` (not rescanned), and scanning resumes after them; on `none` the
current character is kept and scanning advances one position. -/
def scanReplGo (f : List Char → Option (Nat × List Char)) : Nat → List Char → List Char
  | _, [] => []
  | 0, c :: cs => c :: cs
  | fuel + 1, c :: cs =>
    match f (c :: cs) with
    | some (n, out) => out ++ scanReplGo f fuel (cs.drop n)
    | none => c :: scanReplGo f fuel cs

def scanRepl (f : List Char → Option (Nat × List Char)) (s : List Char) : List Char :=
  scanReplGo f s.length s

theorem scanReplGo_congr (f : List Char → Option (Nat × List Char)) :
    ∀ (n m : Nat) (s : List Char), s.length ≤ n → s.length ≤ m →
      scanReplGo f n s = scanReplGo f m s := by
  intro n
  induction n with
  | zero =>
    intro m s hn _
    have : s = [] := List.eq_nil_of_length_eq_zero (Nat.le_zero.1 hn)
    subst this
    cases m <;> rfl
  | succ n ih =>
    intro m s hn hm
    cases s with
    | nil => cases m <;> rfl
    | cons c cs =>
      cases m with
      | zero => simp at hm
      | succ m' =>
        simp only [scanReplGo]
        cases hf : f (c :: cs) with
        | some p =>
          obtain ⟨k, out⟩ := p
          have hlen : (cs.drop k).length ≤ n := by
            simp only [List.length_drop]
            simp only [List.length_cons] at hn
            omega
          have hlen' : (cs.drop k).length ≤ m' := by
            simp only [List.length_drop]
            simp only [List.length_cons] at hm
            omega
          show out ++ scanReplGo f n (cs.drop k) = out ++ scanReplGo f m' (cs.drop k)
          rw [ih m' (cs.drop k) hlen hlen']
        | none =>
          have hlen : cs.length ≤ n := by
            simp only [List.length_cons] at hn
            omega
          have hlen' : cs.length ≤ m' := by
            simp only [List.length_cons] at hm
            omega
          show c :: scanReplGo f n cs = c :: scanReplGo f m' cs
          rw [ih m' cs hlen hlen']

/-- The zero-width lookahead `(?=\n## |$)` of the practicum-section regex of
process_csv.py (no MULTILINE flag, so `$` matches at the end of the string
or just before a final newline). -/
def lookaheadHit (t : List Char) : Bool :=
  t.isEmpty || t == ['\n'] || startsL ['\n', '#', '#', ' '] t

/-- Length of the lazy `(.*?)` body: the least number of characters after
which the lookahead holds (it always holds at the end of the string). -/
def findEnd : List Char → Nat
  | [] => 0
  | c :: cs => if lookaheadHit (c :: cs) then 0 else findEnd cs + 1

/-- Index of the closing quote for the lazy pattern `.*?"` without DOTALL:
the first `"` on the current line, if any before a newline. -/
def findQuote : List Char → Option Nat
  | [] => none
  | c :: cs =>
    if c == '"' then some 0
    else if c == '\n' then none
    else (findQuote cs).map (· + 1)

/-- Characters before the first occurrence of `t`, if `t` occurs. -/
def takeUntilChar (t : Char) : List Char → Option (List Char)
  | [] => none
  | c :: cs => if c == t then some [] else (takeUntilChar t cs).map (c :: ·)

/-- Characters after the first occurrence of `t`, if `t` occurs
(Python `s.split(t, 1)[1]`). -/
def afterFirstChar (t : Char) : List Char → Option (List Char)
  | [] => none
  | c :: cs => if c == t then some cs else afterFirstChar t cs

/-- After a literal `[`, find a `](` followed later by `)` and return the
characters between `](` and the first subsequent `)`; on failure at one
`](` the next one is tried, mirroring regex backtracking of
`\[(.*?)\]\((.*?)\)`. -/
def mdLinkAux : List Char → Option (List Char)
  | [] => none
  | c :: cs =>
    if startsL [']', '('] (c :: cs) then
      match takeUntilChar ')' (cs.drop 1) with
      | some u => some u
      | none => mdLinkAux (cs.drop 1)
    else mdLinkAux cs
termination_by s => s.length
decreasing_by
  all_goals simp [List.length_drop]
  omega

/-- `re.search(r'\[(.*?)\]\((.*?)\)', line)`, returning the URL group.
The scripts apply it to single lines, so the no-newline restriction of `.`
is vacuous. -/
def mdLinkUrlChars : List Char → Option (List Char)
  | [] => none
  | c :: cs =>
    if c == '[' then
      match mdLinkAux cs with
      | some u => some u
      | none => mdLinkUrlChars cs
    else mdLinkUrlChars cs

/-- URL group of the markdown-link regex on a line. -/
def mdLinkUrl (line : String) : Option String :=
  (mdLinkUrlChars line.data).map fun l => ⟨l⟩

/-- `\w` of the email regex (ASCII range, as used by the profiles). -/
def isWordChar (c : Char) : Bool := c.isAlphanum || c == '_'

/-- The char class `[\w\.-]` of the email regex. -/
def isEmailChar (c : Char) : Bool := isWordChar c || c == '.' || c == '-'

/-- Largest index `j` of the run with a `.` at `j` followed by a word
character: the backtracking point of `[\w\.-]+\.\w+` (greedy part first,
so the rightmost viable dot wins). -/
def findLastDotWord : List Char → Option Nat
  | [] => none
  | c :: cs =>
    match findLastDotWord cs with
    | some j => some (j + 1)
    | none =>
      if c == '.' && (match cs.head? with | some d => isWordChar d | none => false)
      then some 0 else none

/-- One attempt of `re.search(r'[\w\.-]+@[\w\.-]+\.\w+', s)` anchored at the
start of `s`: greedy local part, literal `@`, greedy domain run backtracked
to the rightmost `.` that is followed by at least one word character. -/
def emailTry (s : List Char) : Option (List Char) :=
  let A := s.takeWhile isEmailChar
  if A.isEmpty then none
  else
    match s.drop A.length with
    | '@' :: rest =>
      let R := rest.takeWhile isEmailChar
      match findLastDotWord R with
      | some j =>
        if j == 0 then none
        else some (A ++ '@' :: (R.take (j + 1) ++ (R.drop (j + 1)).takeWhile isWordChar))
      | none => none
    | _ => none

/-- Leftmost match of the email regex on a line. -/
def emailSearchChars : List Char → Option (List Char)
  | [] => none
  | c :: cs =>
    match emailTry (c :: cs) with
    | some e => some e
    | none => emailSearchChars cs

/-- `re.search(r'[\w\.-]+@[\w\.-]+\.\w+', line)`, returning the match text. -/
def emailSearch (line : String) : Option String :=
  (emailSearchChars line.data).map fun l => ⟨l⟩

/-- One attempt of `https?://[^\s]*DOMAIN[^\s]*` anchored at the start:
scheme, then the maximal non-whitespace run, which must contain the domain
(the trailing greedy `[^\s]*` extends the match to the end of the run).
With an empty domain this is `https?://[^\s]+` (run must be nonempty). -/
def urlTry (domain : List Char) (needNonEmpty : Bool) (s : List Char) : Option (List Char) :=
  let scheme : Option Nat :=
    if startsL "https://".data s then some 8
    else if startsL "http://".data s then some 7
    else none
  match scheme with
  | none => none
  | some n =>
    let run := (s.drop n).takeWhile (fun c => !c.isWhitespace)
    if needNonEmpty && run.isEmpty then none
    else if (findSplit domain run).isSome then some (s.take n ++ run)
    else none

/-- Leftmost match of the raw-URL regex on a line. -/
def urlSearchChars (domain : List Char) (needNonEmpty : Bool) : List Char → Option (List Char)
  | [] => none
  | c :: cs =>
    match urlTry domain needNonEmpty (c :: cs) with
    | some u => some u
    | none => urlSearchChars domain needNonEmpty cs

/-- `re.search(r'https?://[^\s]*DOMAIN[^\s]*', line)`. -/
def urlSearch (domain : String) (line : String) : Option String :=
  (urlSearchChars domain.data false line.data).map fun l => ⟨l⟩

/-- `re.search(r'https?://[^\s]+', line)`. -/
def urlSearchAny (line : String) : Option String :=
  (urlSearchChars [] true line.data).map fun l => ⟨l⟩

/-! ## Data model (sync-to-portfolio.py) -/

/-- The structured record built by `parse_project_section`. -/
structure Project where
  title : String := ""
  tags : List String := []
  abstract : String := ""
  achievements : List String := []
  technologies : String := ""
  github : String := "#"
  report : String := "#"
  slides : String := "#"
  demo : String := "#"
deriving DecidableEq

/-- The structured record built by `parse_contact_section`. -/
structure Contact where
  email : String := ""
  linkedin : String := "#"
  github : String := "#"
  portfolio : String := "#"
deriving DecidableEq

/-- The `sections` dictionary of `parse_markdown_sections`.  The practicum
and contact entries start as empty dicts in Python, modelled as `none`
(an empty dict is falsy exactly as `none` is). -/
structure Sections where
  about : String := ""
  skills : List (String × List String) := []
  practicum1 : Option Project := none
  practicum2 : Option Project := none
  contact : Option Contact := none
  experience : String := ""
  achievements : List String := []
deriving DecidableEq

/-- The canonical section keys assigned by the classification chain. -/
inductive SectionKey where
  | about | skills | practicum1 | practicum2 | contact | experience | achievements
deriving DecidableEq

/-- `clean_email` of sync-to-portfolio.py: drop the worldclass subdomain. -/
def clean_email (email : String) : String :=
  if email == "" then email
  else ⟨scanRepl
    (fun s => if startsL "@worldclass.regis.edu".data s
              then some ("@worldclass.regis.edu".data.length - 1, "@regis.edu".data)
              else none) email.data⟩

/-- `parse_skills_section`: bold category labels ending in a colon open a
category; subsequent bullet lines append to the open category.  A repeated
category label resets its list, keeping its position (Python dict). -/
def setSkillCat (skills : List (String × List String)) (cat : String) :
    List (String × List String) :=
  if skills.any (fun kv => kv.1 == cat)
  then skills.map (fun kv => if kv.1 == cat then (kv.1, []) else kv)
  else skills ++ [(cat, [])]

/-- Append a skill to the entry of the current category. -/
def addSkill (skills : List (String × List String)) (cat skill : String) :
    List (String × List String) :=
  skills.map (fun kv => if kv.1 == cat then (kv.1, kv.2 ++ [skill]) else kv)

/-- One line of `parse_skills_section`. -/
def skillsLine (st : List (String × List String) × Option String) (line : String) :
    List (String × List String) × Option String :=
  let l := pyStrip line
  if pyStartsWith "**" l && pyEndsWith ":**" l then
    let cat := pyStrip (strDropRight (strDrop l 2) 3)
    (setSkillCat st.1 cat, some cat)
  else if pyStartsWith "- " l then
    match st.2 with
    | some cat => (addSkill st.1 cat (pyStrip (strDrop l 2)), st.2)
    | none => st
  else st

/-- `parse_skills_section` of sync-to-portfolio.py. -/
def parse_skills_section (skills_text : String) : List (String × List String) :=
  ((pySplitNl skills_text).foldl skillsLine ([], none)).1

/-- The `current_field` state of `parse_project_section`. -/
inductive ProjField where
  | abstract | achievements | links
deriving DecidableEq

/-- The link-text classifier of the Links field: first matching keyword
wins; the URL comes from the markdown-link regex. -/
def projLinkLine (p : Project) (link_text : String) : Project :=
  let low := pyLower link_text
  if pyIn "github" low then
    match mdLinkUrl link_text with
    | some u => { p with github := u }
    | none => p
  else if pyIn "report" low then
    match mdLinkUrl link_text with
    | some u => { p with report := u }
    | none => p
  else if pyIn "slide" low || pyIn "presentation" low then
    match mdLinkUrl link_text with
    | some u => { p with slides := u }
    | none => p
  else if pyIn "demo" low then
    match mdLinkUrl link_text with
    | some u => { p with demo := u }
    | none => p
  else p

/-- One line of `parse_project_section` (the elif chain over the stripped
line; note that the Title/Tags/Technologies branches do not change
`current_field`). -/
def projLine (st : Project × Option ProjField) (line : String) :
    Project × Option ProjField :=
  let p := st.1
  let cf := st.2
  let l := pyStrip line
  if pyStartsWith "**Title:**" l then
    ({ p with title := pyStrip (strDrop l 10) }, cf)
  else if pyStartsWith "**Tags:**" l then
    let tags := pyStrip (strDrop l 9)
    ({ p with tags := ((pySplitChar ',' tags).map pyStrip).filter (· ≠ "") }, cf)
  else if pyStartsWith "**Abstract:**" l then
    ({ p with abstract := pyStrip (strDrop l 13) }, some .abstract)
  else if pyStartsWith "**Technologies Used:**" l || pyStartsWith "**Technologies:**" l then
    ({ p with technologies := pyStrip ⟨(afterFirstChar ':' l.data).getD []⟩ }, cf)
  else if pyStartsWith "**Key Achievements:**" l then
    (p, some .achievements)
  else if pyStartsWith "**Links:**" l then
    (p, some .links)
  else if pyStartsWith "- " l then
    match cf with
    | some .achievements => ({ p with achievements := p.achievements ++ [pyStrip (strDrop l 2)] }, cf)
    | some .links => (projLinkLine p (pyStrip (strDrop l 2)), cf)
    | _ => (p, cf)
  else if cf == some .abstract && l ≠ "" && !pyStartsWith "**" l then
    (if p.abstract ≠ "" then { p with abstract := p.abstract ++ " " ++ l }
     else { p with abstract := l }, cf)
  else (p, cf)

/-- `parse_project_section` of sync-to-portfolio.py. -/
def parse_project_section (project_text : String) : Project :=
  ((pySplitNl project_text).foldl projLine ({}, none)).1

/-- One line of `parse_contact_section` (the elif chain; every branch works
on the stripped line, which Python rebinds to `line`). -/
def contactLine (c : Contact) (line : String) : Contact :=
  let l := pyStrip line
  let low := pyLower l
  if pyIn "email" low && pyIn "@" l then
    match emailSearch l with
    | some e => { c with email := clean_email e }
    | none => c
  else if pyIn "linkedin" low then
    if pyIn "[" l && pyIn "]" l && pyIn "(" l && pyIn ")" l then
      match mdLinkUrl l with
      | some u => if pyIn "linkedin.com" u then { c with linkedin := u } else c
      | none => c
    else
      match urlSearch "linkedin.com" l with
      | some u => { c with linkedin := u }
      | none => c
  else if pyIn "github" low then
    if pyIn "[" l && pyIn "]" l && pyIn "(" l && pyIn ")" l then
      match mdLinkUrl l with
      | some u => if pyIn "github.com" u then { c with github := u } else c
      | none => c
    else
      match urlSearch "github.com" l with
      | some u => { c with github := u }
      | none => c
  else if (pyIn "portfolio" low || pyIn "website" low) && pyIn "http" l then
    if pyIn "[" l && pyIn "]" l && pyIn "(" l && pyIn ")" l then
      match mdLinkUrl l with
      | some u => { c with portfolio := u }
      | none => c
    else
      match urlSearchAny l with
      | some u => { c with portfolio := u }
      | none => c
  else c

/-- `parse_contact_section` of sync-to-portfolio.py. -/
def parse_contact_section (contact_text : String) : Contact :=
  (pySplitNl contact_text).foldl contactLine {}

/-- `parse_achievements_section` of sync-to-portfolio.py. -/
def parse_achievements_section (achievements_text : String) : List String :=
  ((pySplitNl achievements_text).foldl
    (fun acc line =>
      let l := pyStrip line
      if pyStartsWith "- " l then acc ++ [pyStrip (strDrop l 2)] else acc) [])

/-- The ordered substring-classification chain for a new heading (the
lowercased text after `## `).  Practicum II / MSDS 696 is tested before
Practicum I / MSDS 692. -/
def classifySection (name : String) : Option SectionKey :=
  if pyIn "about" name then some .about
  else if pyIn "skill" name then some .skills
  else if pyIn "practicum ii" name || pyIn "msds 696" name then some .practicum2
  else if pyIn "practicum i" name || pyIn "msds 692" name then some .practicum1
  else if pyIn "contact" name then some .contact
  else if pyIn "experience" name then some .experience
  else if pyIn "achievement" name || pyIn "award" name then some .achievements
  else none

/-- Flushing an accumulated section inside the line loop (all seven keys). -/
def flushMid (secs : Sections) (key : SectionKey) (content : String) : Sections :=
  match key with
  | .about => { secs with about := content }
  | .skills => { secs with skills := parse_skills_section content }
  | .practicum1 => { secs with practicum1 := some (parse_project_section content) }
  | .practicum2 => { secs with practicum2 := some (parse_project_section content) }
  | .contact => { secs with contact := some (parse_contact_section content) }
  | .experience => { secs with experience := content }
  | .achievements => { secs with achievements := parse_achievements_section content }

/-- Flushing the final section after the loop: the source's trailing flush
omits the experience and achievements branches. -/
def flushEnd (secs : Sections) (key : SectionKey) (content : String) : Sections :=
  match key with
  | .about => { secs with about := content }
  | .skills => { secs with skills := parse_skills_section content }
  | .practicum1 => { secs with practicum1 := some (parse_project_section content) }
  | .practicum2 => { secs with practicum2 := some (parse_project_section content) }
  | .contact => { secs with contact := some (parse_contact_section content) }
  | .experience => secs
  | .achievements => secs

/-- One line of the section segmenter.  State: result so far, current
canonical key (if the last heading was classified), accumulated raw lines. -/
def sectionsLine (st : Sections × Option SectionKey × List String) (line : String) :
    Sections × Option SectionKey × List String :=
  let l := pyStrip line
  if pyStartsWith "## " l then
    let secs :=
      match st.2.1 with
      | some key =>
        if st.2.2 ≠ [] then flushMid st.1 key (pyStrip (pyJoin "\n" st.2.2)) else st.1
      | none => st.1
    let name := pyLower (pyStrip (strDrop l 3))
    (secs, classifySection name, [])
  else
    match st.2.1 with
    | some _ => if l ≠ "" then (st.1, st.2.1, st.2.2 ++ [line]) else st
    | none => st

/-- `parse_markdown_sections` of sync-to-portfolio.py. -/
def parse_markdown_sections (content : String) : Sections :=
  let st := (pySplitNl content).foldl sectionsLine ({}, none, [])
  match st.2.1 with
  | some key =>
    if st.2.2 ≠ [] then flushEnd st.1 key (pyStrip (pyJoin "\n" st.2.2)) else st.1
  | none => st.1

/-- Python `content.split('---', 2)` (at most two splits, three parts). -/
def pySplit3 (pat : String) (s : String) : List String :=
  match findSplit pat.data s.data with
  | none => [s]
  | some (a, r) =>
    match findSplit pat.data r with
    | none => [⟨a⟩, ⟨r⟩]
    | some (b, c) => [⟨a⟩, ⟨b⟩, ⟨c⟩]

/-- `parse_markdown_profile` of sync-to-portfolio.py (the in-memory part:
file reading is a collaborator).  The YAML library is external to the
repository, so the header parser is a parameter: `none` models
`yaml.safe_load` raising `YAMLError`, in which case the code falls back to
an empty mapping while keeping the body it already split off. -/
def parse_markdown_profile (yamlLoad : String → Option (List (String × String)))
    (content : String) : List (String × String) × String :=
  if pyStartsWith "---" content then
    match pySplit3 "---" content with
    | [_, p1, p2] => ((yamlLoad p1).getD [], pyStrip p2)
    | _ => ([], content)
  else ([], content)

/-! ## HTML renderers (sync-to-portfolio.py) -/

/-- Helper for Python `str.split('\n\n')`; `acc` holds the current chunk
reversed.  Occurrences are consumed left to right without overlap. -/
def splitNlNlAux : List Char → List Char → List (List Char)
  | acc, '\n' :: '\n' :: cs => acc.reverse :: splitNlNlAux [] cs
  | acc, c :: cs => splitNlNlAux (c :: acc) cs
  | acc, [] => [acc.reverse]

/-- Python `str.split('\n\n')`. -/
def pySplitNlNl (s : String) : List String :=
  (splitNlNlAux [] s.data).map fun l => ⟨l⟩

/-- `format_about_text` (the definition at lines 940-954): split the about
text on blank lines and wrap each nonempty paragraph in a `<p>` block, with
a canned default when the text is empty. -/
def format_about_text (about_text : String) : String :=
  if about_text == "" then
    "<p class=\"text-lg leading-relaxed mb-4\">\n            I am a dedicated Data Science student at Regis University, currently completing my practicum \n            experience. Please edit your profile.md file to add information about yourself.\n        </p>"
  else
    (pySplitNlNl about_text).foldl
      (fun html para =>
        if pyStrip para ≠ "" then
          html ++ "<p class=\"text-lg leading-relaxed mb-4\">" ++ pyStrip para ++ "</p>\n"
        else html) ""

/-- Python truthiness of `project_urls.get(key)`: present and non-empty
(the placeholder "#" is truthy). -/
def pyGetTruthy (urls : List (String × String)) (key : String) : Bool :=
  match urls.find? (fun kv => kv.1 == key) with
  | some kv => kv.2 ≠ ""
  | none => false

/-- `project_urls.get(key)` rendered into an href (only read when truthy). -/
def pyGetStr (urls : List (String × String)) (key : String) : String :=
  match urls.find? (fun kv => kv.1 == key) with
  | some kv => kv.2
  | none => ""

/-- The `links_html` block of `generate_enhanced_project_html`
(sync-to-portfolio.py lines 1350-1379): a button is emitted whenever the
corresponding URL value is truthy, always as an enabled anchor. -/
def links_html (project_urls : List (String × String)) : String :=
  if project_urls.any (fun kv => kv.2 ≠ "") then
    "<div class=\"flex flex-wrap gap-3 mt-6\">" ++
    (if pyGetTruthy project_urls "github" then
      "\n            <a href=\"" ++ pyGetStr project_urls "github" ++
      "\" target=\"_blank\" \n               class=\"inline-flex items-center px-4 py-2 bg-gray-800 text-white rounded-lg hover:bg-gray-700 transition duration-300\">\n                <i class=\"fab fa-github mr-2\"></i> GitHub Repository\n            </a>\n            "
     else "") ++
    (if pyGetTruthy project_urls "presentation" then
      "\n            <a href=\"" ++ pyGetStr project_urls "presentation" ++
      "\" target=\"_blank\"\n               class=\"inline-flex items-center px-4 py-2 bg-blue-600 text-white rounded-lg hover:bg-blue-700 transition duration-300\">\n                <i class=\"fas fa-presentation-screen mr-2\"></i> Presentation\n            </a>\n            "
     else "") ++
    (if pyGetTruthy project_urls "report" then
      "\n            <a href=\"" ++ pyGetStr project_urls "report" ++
      "\" target=\"_blank\"\n               class=\"inline-flex items-center px-4 py-2 bg-red-600 text-white rounded-lg hover:bg-red-700 transition duration-300\">\n                <i class=\"fas fa-file-pdf mr-2\"></i> Project Report\n            </a>\n            "
     else "") ++ "</div>"
  else ""

/-! ## Merge engine (process_csv.py, `update_existing_profile`) -/

/-- Match function for the practicum-section regex
`(## CN - Practicum PN\n\n)(.*?)(?=\n## |$)` with DOTALL: on a heading
match the lazy body runs to the first lookahead hit.  `H` is the heading
text including its trailing blank line and is never empty (the replacement
text contains no backslash escapes in any use here, so it is literal). -/
def subPracticumF (H new : List Char) (s : List Char) : Option (Nat × List Char) :=
  if startsL H s then some (H.length + findEnd (s.drop H.length) - 1, new) else none

/-- `re.sub` of the practicum-section regex. -/
def subPracticum (H new : String) (s : String) : String :=
  ⟨scanRepl (subPracticumF H.data new.data) s.data⟩

/-- Match function for a literal pattern (never empty in any use). -/
def replaceLitF (pat new : List Char) (s : List Char) : Option (Nat × List Char) :=
  if startsL pat s then some (pat.length - 1, new) else none

/-- `re.sub` of a literal pattern (also Python `str.replace`). -/
def replaceLit (pat new : String) (s : String) : String :=
  ⟨scanRepl (replaceLitF pat.data new.data) s.data⟩

/-- Match function for the front-matter field regex `LABEL.*?"` without
DOTALL: after the literal label (which ends in an opening quote, and is
never empty), the lazy body runs to the first `"` with no intervening
newline; with no closing quote on the line there is no match here. -/
def subFieldF (L new : List Char) (s : List Char) : Option (Nat × List Char) :=
  if startsL L s then
    match findQuote (s.drop L.length) with
    | some k => some (L.length + k, new)
    | none => none
  else none

/-- `re.sub` of a front-matter field regex. -/
def subField (L new : String) (s : String) : String :=
  ⟨scanRepl (subFieldF L.data new.data) s.data⟩

/-- The heading-plus-blank-line group of the practicum-section regex of
`update_existing_profile`. -/
def practicumHeading (course_number practicum_number : String) : String :=
  "## " ++ course_number ++ " - Practicum " ++ practicum_number ++ "\n\n"

/-- The rendered practicum section of `update_existing_profile` (both the
replace and the insert branch build this same text). -/
def mkNewSection (course_number practicum_number project_title semester year : String)
    (tags : List String) (github username : String) : String :=
  "## " ++ course_number ++ " - Practicum " ++ practicum_number ++
  "\n\n**Title:** " ++ project_title ++
  "\n\n**Semester:** " ++ pyTitle semester ++ " " ++ year ++
  "\n\n**Tags:** " ++ pyJoin ", " tags ++
  "\n\n**Abstract:** This project focuses on " ++ pyLower project_title ++
  ". Please update this section with a detailed description of your project, methodology, and key findings." ++
  "\n\n**Key Achievements:**\n- Please add your key project achievements\n- Include quantifiable results where possible\n- Highlight technical innovations or challenges overcome" ++
  "\n\n**Technologies Used:** Please list the main technologies and tools used in your project" ++
  "\n\n**Links:**\n- GitHub Repository: [" ++
  (if github ≠ "" then github else "Add your GitHub link") ++ "](" ++
  (if github ≠ "" then github else "#") ++
  ")\n- Project Report: [Download Report](reports/" ++ username ++ "_practicum" ++
  pyLower practicum_number ++ "_report.pdf)\n- Presentation Slides: [View Slides](presentations/" ++
  username ++ "_practicum" ++ pyLower practicum_number ++ "_slides.pdf)" ++
  "\n\n*Please update the links above with your actual project URLs and ensure your PDF files are uploaded to the correct folders.*\n\n"

/-- `update_existing_profile` of process_csv.py.  Parameters flatten the
Python dicts: `username`/`github` come from `student_data`,
`course`/`semester`/`year` from `course_info`; `existing_practica` is the
list of (course number, practicum numeral, body) triples the caller
extracted.  The three states: replace every matching practicum span, else
insert before every `\n## Contact\n` anchor, else append at the end after
stripping trailing whitespace; finally the two front-matter field patterns
are substituted over the whole resulting document. -/
def update_existing_profile (existing_content : String)
    (existing_practica : List (String × String × String))
    (username github course semester year : String)
    (practicum_number project_title : String) (tags : List String) : String :=
  let course_number := if pyIn "msds692" (pyLower course) then "MSDS 692" else "MSDS 696"
  let new_section :=
    mkNewSection course_number practicum_number project_title semester year tags github username
  let practicum_exists := existing_practica.any (fun p => p.1 == course_number)
  let heading := practicumHeading course_number practicum_number
  let step1 :=
    if practicum_exists then
      subPracticum heading new_section existing_content
    else if pyIn "\n## Contact\n" existing_content then
      replaceLit "\n## Contact\n" ("\n" ++ new_section ++ "\n## Contact\n") existing_content
    else
      pyRstrip existing_content ++ "\n\n" ++ new_section
  let step2 := subField "current_course: \"" ("current_course: \"" ++ course_number ++ "\"") step1
  subField "current_semester: \""
    ("current_semester: \"" ++ pyTitle semester ++ " " ++ year ++ "\"") step2

/-! ## Lemma library: the scanners on decomposed inputs -/

theorem startsL_append_self (p t : List Char) : startsL p (p ++ t) = true := by
  induction p with
  | nil => rfl
  | cons c cs ih => simp [startsL, ih]

theorem startsL_iff (p s : List Char) : startsL p s = true ↔ ∃ t, s = p ++ t := by
  induction p generalizing s with
  | nil => simp [startsL]
  | cons c cs ih =>
    cases s with
    | nil => simp [startsL]
    | cons d ds =>
      simp only [startsL, Bool.and_eq_true, beq_iff_eq, ih]
      constructor
      · rintro ⟨rfl, t, rfl⟩; exact ⟨t, rfl⟩
      · rintro ⟨t, h⟩
        cases h
        exact ⟨rfl, t, rfl⟩

theorem scanRepl_cons (f : List Char → Option (Nat × List Char)) (c : Char) (cs : List Char) :
    scanRepl f (c :: cs) =
      match f (c :: cs) with
      | some (n, out) => out ++ scanRepl f (cs.drop n)
      | none => c :: scanRepl f cs := by
  show scanReplGo f (cs.length + 1) (c :: cs) = _
  simp only [scanReplGo]
  cases hf : f (c :: cs) with
  | some p =>
    obtain ⟨n, out⟩ := p
    show out ++ scanReplGo f cs.length (cs.drop n) = out ++ scanRepl f (cs.drop n)
    rw [scanReplGo_congr f cs.length (cs.drop n).length (cs.drop n)
      (by simp only [List.length_drop]; omega) (le_refl _)]
    rfl
  | none => rfl

theorem scanRepl_skip (f : List Char → Option (Nat × List Char)) (a t : List Char)
    (h : ∀ q, q < a.length → f (a.drop q ++ t) = none) :
    scanRepl f (a ++ t) = a ++ scanRepl f t := by
  induction a with
  | nil => simp
  | cons c cs ih =>
    have h0 : f (c :: (cs ++ t)) = none := by simpa using h 0 (by simp)
    rw [List.cons_append, scanRepl_cons, h0]
    simp only [List.cons_append, List.cons.injEq, true_and]
    exact ih fun q hq => by simpa using h (q + 1) (by simpa using hq)

theorem scanRepl_nil (f : List Char → Option (Nat × List Char)) : scanRepl f [] = [] := rfl

theorem scanRepl_self (f : List Char → Option (Nat × List Char)) (s : List Char)
    (h : ∀ q, q < s.length → f (s.drop q) = none) :
    scanRepl f s = s := by
  have := scanRepl_skip f s [] (fun q hq => by simpa using h q hq)
  simpa [scanRepl_nil] using this

theorem scanRepl_match (f : List Char → Option (Nat × List Char)) (c : Char)
    (cs : List Char) (n : Nat) (out : List Char) (hf : f (c :: cs) = some (n, out)) :
    scanRepl f (c :: cs) = out ++ scanRepl f (cs.drop n) := by
  rw [scanRepl_cons, hf]

theorem findSplit_cons (pat : List Char) (c : Char) (cs : List Char) :
    findSplit pat (c :: cs) =
      if startsL pat (c :: cs) then some ([], (c :: cs).drop pat.length)
      else (findSplit pat cs).map fun x => (c :: x.1, x.2) := rfl

theorem findSplit_skip (pat a t : List Char)
    (h : ∀ q, q < a.length → startsL pat (a.drop q ++ t) = false) :
    findSplit pat (a ++ t) = (findSplit pat t).map fun x => (a ++ x.1, x.2) := by
  induction a with
  | nil => cases hf : findSplit pat t <;> simp [hf]
  | cons c cs ih =>
    have h0 : startsL pat (c :: (cs ++ t)) = false := by simpa using h 0 (by simp)
    rw [List.cons_append, findSplit_cons, if_neg (by simp [h0])]
    rw [ih fun q hq => by simpa using h (q + 1) (by simpa using hq)]
    cases hf : findSplit pat t <;> simp [hf]

theorem findSplit_at_head (pat t : List Char) (hp : pat ≠ []) :
    findSplit pat (pat ++ t) = some ([], t) := by
  cases pat with
  | nil => exact absurd rfl hp
  | cons c cs =>
    have hs : startsL (c :: cs) (c :: cs ++ t) = true := startsL_append_self _ _
    rw [List.cons_append] at hs
    rw [List.cons_append, findSplit_cons, if_pos hs]
    have hd : List.drop (c :: cs).length (c :: (cs ++ t)) = t := by
      simp [List.drop_left cs t]
    rw [hd]

theorem findSplit_none (pat s : List Char)
    (h : ∀ q, q < s.length → startsL pat (s.drop q) = false) :
    findSplit pat s = none := by
  induction s with
  | nil => rfl
  | cons c cs ih =>
    have h0 : startsL pat (c :: cs) = false := by simpa using h 0 (by simp)
    rw [findSplit_cons, if_neg (by simp [h0])]
    rw [ih fun q hq => by simpa using h (q + 1) (by simpa using hq)]
    rfl

theorem findSplit_isSome (pat a b : List Char) (hp : pat ≠ []) :
    (findSplit pat (a ++ pat ++ b)).isSome = true := by
  induction a with
  | nil => simp [findSplit_at_head pat b hp]
  | cons c cs ih =>
    simp only [List.append_assoc, List.cons_append] at ih ⊢
    rw [findSplit_cons]
    by_cases hs : startsL pat (c :: (cs ++ (pat ++ b))) = true
    · simp [hs]
    · rw [if_neg (by simp [hs])]
      cases hfs : findSplit pat (cs ++ (pat ++ b)) with
      | none => rw [hfs] at ih; simp at ih
      | some x => simp

theorem findEnd_cons (c : Char) (cs : List Char) :
    findEnd (c :: cs) = if lookaheadHit (c :: cs) then 0 else findEnd cs + 1 := rfl

theorem findEnd_append (b c : List Char)
    (hb : ∀ q, q < b.length → lookaheadHit (b.drop q ++ c) = false)
    (hc : lookaheadHit c = true) :
    findEnd (b ++ c) = b.length := by
  induction b with
  | nil =>
    simp only [List.nil_append, List.length_nil]
    cases c with
    | nil => rfl
    | cons d ds => rw [findEnd_cons, if_pos hc]
  | cons x b' ih =>
    have h0 : lookaheadHit (x :: (b' ++ c)) = false := by simpa using hb 0 (by simp)
    rw [List.cons_append, findEnd_cons, if_neg (by simp [h0])]
    rw [ih fun q hq => by simpa using hb (q + 1) (by simpa using hq)]
    simp

theorem findQuote_append (v r : List Char) (hv : ∀ ch ∈ v, ch ≠ '"' ∧ ch ≠ '\n') :
    findQuote (v ++ '"' :: r) = some v.length := by
  induction v with
  | nil => simp [findQuote]
  | cons x v' ih =>
    have hx := hv x (by simp)
    rw [List.cons_append, findQuote]
    rw [if_neg (by simp [hx.1]), if_neg (by simp [hx.2])]
    rw [ih fun ch hch => hv ch (by simp [hch])]
    simp

theorem takeUntilChar_append (t : Char) (v r : List Char) (hv : ∀ ch ∈ v, ch ≠ t) :
    takeUntilChar t (v ++ t :: r) = some v := by
  induction v with
  | nil => simp [takeUntilChar]
  | cons x v' ih =>
    rw [List.cons_append, takeUntilChar, if_neg (by simp [hv x (by simp)])]
    rw [ih fun ch hch => hv ch (by simp [hch])]
    rfl

/-! ## Lemma library: strings, stripping, splitting and joining -/

/-- The string has no leading whitespace. -/
def noLeadWs (s : String) : Prop := s.data.dropWhile Char.isWhitespace = s.data

/-- The string has no trailing whitespace. -/
def noTrailWs (s : String) : Prop := s.data.reverse.dropWhile Char.isWhitespace = s.data.reverse

instance (s : String) : Decidable (noLeadWs s) := by unfold noLeadWs; infer_instance

instance (s : String) : Decidable (noTrailWs s) := by unfold noTrailWs; infer_instance

theorem string_eq_of_data {s t : String} (h : s.data = t.data) : s = t := by
  cases s; cases t; exact congrArg String.mk h

theorem pyStrip_append (X y : String) (hX : noLeadWs X) (hXne : X.data ≠ [])
    (hy : noTrailWs y) (hlast : y.data = [] → noTrailWs X) :
    pyStrip (X ++ y) = X ++ y := by
  apply string_eq_of_data
  show stripChars (X ++ y).data = (X ++ y).data
  rw [String.data_append]
  unfold stripChars
  rw [List.dropWhile_append]
  rw [if_neg (by rw [hX]; simpa using hXne)]
  rw [hX, List.reverse_append]
  by_cases hye : y.data = []
  · rw [hye]
    have := hlast hye
    unfold noTrailWs at this
    simp [this]
  · rw [List.dropWhile_append, if_neg (by rw [hy]; simpa using hye), hy]
    simp

theorem pyLower_append (a b : String) : pyLower (a ++ b) = pyLower a ++ pyLower b := by
  apply string_eq_of_data
  simp [pyLower, String.data_append]

theorem strDrop_append (a b : String) : strDrop (a ++ b) a.data.length = b := by
  apply string_eq_of_data
  simp [strDrop, String.data_append, List.drop_left]

theorem pyIn_parts (n p q : String) (hn : n.data ≠ []) : pyIn n (p ++ n ++ q) = true := by
  unfold pyIn
  rw [String.data_append, String.data_append]
  exact findSplit_isSome n.data p.data q.data hn

theorem pyStartsWith_parts (p t : String) : pyStartsWith p (p ++ t) = true := by
  unfold pyStartsWith
  rw [String.data_append]
  exact startsL_append_self p.data t.data

theorem splitSepAux_sep (sep : Char) (acc t : List Char) :
    splitSepAux sep acc (sep :: t) = acc.reverse :: splitSepAux sep [] t := by
  rw [splitSepAux]
  simp

theorem splitSepAux_skip (sep : Char) (l : List Char) (acc t : List Char)
    (h : ∀ c ∈ l, c ≠ sep) :
    splitSepAux sep acc (l ++ t) = splitSepAux sep (l.reverse ++ acc) t := by
  induction l generalizing acc with
  | nil => simp
  | cons c cs ih =>
    rw [List.cons_append, splitSepAux, if_neg (by simp [h c (by simp)])]
    rw [ih _ fun d hd => h d (by simp [hd])]
    simp

theorem splitSepAux_no_sep (sep : Char) (l acc : List Char) (h : ∀ c ∈ l, c ≠ sep) :
    splitSepAux sep acc l = [acc.reverse ++ l] := by
  have := splitSepAux_skip sep l acc [] h
  rw [List.append_nil] at this
  rw [this, splitSepAux]
  simp

theorem pySplitNl_join (ls : List String) (hne : ls ≠ [])
    (h : ∀ l ∈ ls, ∀ c ∈ l.data, c ≠ '\n') :
    pySplitNl (pyJoin "\n" ls) = ls := by
  induction ls with
  | nil => exact absurd rfl hne
  | cons x xs ih =>
    cases xs with
    | nil =>
      show (splitSepAux '\n' [] (pyJoin "\n" [x]).data).map (fun l => (⟨l⟩ : String)) = [x]
      rw [show pyJoin "\n" [x] = x from rfl]
      rw [splitSepAux_no_sep '\n' x.data [] (h x (by simp))]
      simp
    | cons y ys =>
      show (splitSepAux '\n' [] (pyJoin "\n" (x :: y :: ys)).data).map
        (fun l => (⟨l⟩ : String)) = x :: y :: ys
      have hdata : (pyJoin "\n" (x :: y :: ys)).data =
          x.data ++ ('\n' :: (pyJoin "\n" (y :: ys)).data) := by
        rw [show pyJoin "\n" (x :: y :: ys) = x ++ "\n" ++ pyJoin "\n" (y :: ys) from rfl]
        rw [String.data_append, String.data_append]
        simp
      rw [hdata]
      rw [splitSepAux_skip '\n' x.data [] _ (h x (by simp))]
      rw [splitSepAux_sep]
      simp only [List.append_nil, List.reverse_reverse, List.map_cons]
      rw [show ({ data := x.data } : String) = x from string_eq_of_data rfl]
      rw [show List.map (fun l => ({ data := l } : String))
            (splitSepAux '\n' [] (pyJoin "\n" (y :: ys)).data) =
          pySplitNl (pyJoin "\n" (y :: ys)) from rfl]
      rw [ih (by simp) fun l hl => h l (by simp [hl])]

/-! ## Lemma library: the section segmenter fold -/

theorem sectionsLine_not_heading_none (secs : Sections) (acc : List String) (line : String)
    (h : pyStartsWith "## " (pyStrip line) = false) :
    sectionsLine (secs, none, acc) line = (secs, none, acc) := by
  unfold sectionsLine
  rw [if_neg (by simp [h])]

theorem foldl_sectionsLine_none (ls : List String) (secs : Sections) (acc : List String)
    (h : ∀ l ∈ ls, pyStartsWith "## " (pyStrip l) = false) :
    ls.foldl sectionsLine (secs, none, acc) = (secs, none, acc) := by
  induction ls with
  | nil => rfl
  | cons x xs ih =>
    rw [List.foldl_cons, sectionsLine_not_heading_none secs acc x (h x (by simp))]
    exact ih fun l hl => h l (by simp [hl])

theorem sectionsLine_accum (secs : Sections) (key : SectionKey) (acc : List String)
    (line : String) (h1 : pyStartsWith "## " (pyStrip line) = false)
    (h2 : pyStrip line ≠ "") :
    sectionsLine (secs, some key, acc) line = (secs, some key, acc ++ [line]) := by
  unfold sectionsLine
  rw [if_neg (by simp [h1])]
  simp [h2]

theorem foldl_sectionsLine_accum (ls : List String) (secs : Sections) (key : SectionKey)
    (acc : List String)
    (h : ∀ l ∈ ls, pyStartsWith "## " (pyStrip l) = false ∧ pyStrip l ≠ "") :
    ls.foldl sectionsLine (secs, some key, acc) = (secs, some key, acc ++ ls) := by
  induction ls generalizing acc with
  | nil => simp
  | cons x xs ih =>
    rw [List.foldl_cons, sectionsLine_accum secs key acc x (h x (by simp)).1 (h x (by simp)).2]
    rw [ih (acc ++ [x]) fun l hl => h l (by simp [hl])]
    simp

/-! ## Claim theorems -/

/-- C6 (counterexample): on body text with no heading markers the segmenter
does not produce an "unclassified" bucket holding the text; it returns the
initial default section structure and the text is discarded (the about
field, like every other field, stays empty). -/
theorem c6_counterexample :
    parse_markdown_sections "hello world" = ({} : Sections) ∧
    (parse_markdown_sections "hello world").about = "" := by
  constructor
  · decide
  · decide

/-- C6 (amended): for every body text containing no heading-marker lines,
the segmenter returns the default empty section structure — every line is
discarded rather than collected into an "unclassified" bucket — and this
is not an error (the function is total). -/
theorem c6_no_heading_default (content : String)
    (h : ∀ l ∈ pySplitNl content, pyStartsWith "## " (pyStrip l) = false) :
    parse_markdown_sections content = ({} : Sections) := by
  unfold parse_markdown_sections
  rw [foldl_sectionsLine_none (pySplitNl content) {} [] h]

/-- C6 (witness). -/
theorem c6_no_heading_default_witness :
    (∀ l ∈ pySplitNl "just some text\nwith two lines",
      pyStartsWith "## " (pyStrip l) = false) ∧
    parse_markdown_sections "just some text\nwith two lines" = ({} : Sections) :=
  ⟨by decide, c6_no_heading_default "just some text\nwith two lines" (by decide)⟩

/-- C8: a heading line whose lowercased text contains "practicum ii" or
"msds 696", and which matches neither of the earlier "about"/"skill"
rules, is classified as practicum2 (never practicum1), because the
practicum-II rules are checked before the practicum-I rules in the
segmenter's ordered chain. -/
theorem c8_practicum2_before_practicum1 (st : Sections × Option SectionKey × List String)
    (line : String) (hstart : pyStartsWith "## " (pyStrip line) = true)
    (h1 : pyIn "about" (pyLower (pyStrip (strDrop (pyStrip line) 3))) = false)
    (h2 : pyIn "skill" (pyLower (pyStrip (strDrop (pyStrip line) 3))) = false)
    (h3 : (pyIn "practicum ii" (pyLower (pyStrip (strDrop (pyStrip line) 3))) ||
           pyIn "msds 696" (pyLower (pyStrip (strDrop (pyStrip line) 3)))) = true) :
    (sectionsLine st line).2.1 = some SectionKey.practicum2 := by
  unfold sectionsLine
  rw [if_pos hstart]
  simp only [classifySection, h1, h2, h3]
  simp

/-- C8 (witness). -/
theorem c8_practicum2_before_practicum1_witness :
    (pyStartsWith "## " (pyStrip "## MSDS 696 - Practicum II") = true ∧
     pyIn "about" (pyLower (pyStrip (strDrop (pyStrip "## MSDS 696 - Practicum II") 3))) = false ∧
     pyIn "skill" (pyLower (pyStrip (strDrop (pyStrip "## MSDS 696 - Practicum II") 3))) = false ∧
     (pyIn "practicum ii" (pyLower (pyStrip (strDrop (pyStrip "## MSDS 696 - Practicum II") 3))) ||
      pyIn "msds 696" (pyLower (pyStrip (strDrop (pyStrip "## MSDS 696 - Practicum II") 3)))) = true) ∧
    (sectionsLine (({} : Sections), none, []) "## MSDS 696 - Practicum II").2.1 =
      some SectionKey.practicum2 :=
  ⟨⟨by decide, by decide, by decide, by decide⟩,
   c8_practicum2_before_practicum1 (({} : Sections), none, []) "## MSDS 696 - Practicum II"
     (by decide) (by decide) (by decide) (by decide)⟩

/-- C2 (code bug): the segmenter drops blank lines inside a section, so an
About section with two paragraphs separated by a blank line is accumulated
without the blank-line separator, and the downstream paragraph renderer
(which splits on blank lines) can only ever produce a single paragraph
block from it. -/
theorem c2_blank_lines_dropped :
    (parse_markdown_sections "## About Me\nFirst para.\n\nSecond para.").about =
      "First para.\nSecond para." ∧
    pyIn "\n\n" "## About Me\nFirst para.\n\nSecond para." = true ∧
    pyIn "\n\n" (parse_markdown_sections "## About Me\nFirst para.\n\nSecond para.").about
      = false ∧
    format_about_text
        (parse_markdown_sections "## About Me\nFirst para.\n\nSecond para.").about =
      "<p class=\"text-lg leading-relaxed mb-4\">First para.\nSecond para.</p>\n" := by
  refine ⟨by decide, by decide, by decide, by decide⟩

/-- Associativity of string append (via the underlying char lists). -/
theorem strAppend_assoc (a b c : String) : a ++ b ++ c = a ++ (b ++ c) := by
  apply string_eq_of_data
  simp [String.data_append, List.append_assoc]

/-- C3 (counterexample): when the header block fails to parse, the body is
the text after the closing delimiter only — the malformed header block is
not kept as part of the body, contradicting the claim that the entire
input text becomes the body.  The header parser argument models
`yaml.safe_load` raising YAMLError on the malformed block `key: [`. -/
theorem c3_counterexample :
    parse_markdown_profile (fun _ => none) "---\nkey: [\n---\nBody text" =
      ([], "Body text") ∧
    "Body text" ≠ "---\nkey: [\n---\nBody text" := by
  refine ⟨by decide, by decide⟩

/-- C3 (amended): for input that begins with the front-matter delimiter and
has a closing delimiter, a header-parse failure yields empty metadata and
a body consisting of the text after the closing delimiter (stripped); the
malformed header block is dropped, and the failure is not fatal. -/
theorem c3_header_failure_fallback (yamlLoad : String → Option (List (String × String)))
    (h b : String)
    (hh : ∀ q, q < h.data.length →
      startsL "---".data (h.data.drop q ++ ("---" ++ b).data) = false)
    (hy : yamlLoad h = none) :
    parse_markdown_profile yamlLoad ("---" ++ h ++ "---" ++ b) = ([], pyStrip b) := by
  have hcontent : ("---" ++ h ++ "---" ++ b) = "---" ++ (h ++ ("---" ++ b)) := by
    rw [strAppend_assoc, strAppend_assoc]
  unfold parse_markdown_profile
  rw [hcontent, if_pos (pyStartsWith_parts "---" (h ++ ("---" ++ b)))]
  have hf1 : findSplit "---".data ("---" ++ (h ++ ("---" ++ b))).data =
      some ([], h.data ++ ("---".data ++ b.data)) := by
    rw [String.data_append, findSplit_at_head "---".data (h ++ ("---" ++ b)).data (by decide)]
    rw [String.data_append, String.data_append]
  have hf2 : findSplit "---".data (h.data ++ ("---".data ++ b.data)) =
      some (h.data, b.data) := by
    rw [findSplit_skip "---".data h.data ("---".data ++ b.data)
      (fun q hq => by
        have := hh q hq
        rwa [String.data_append] at this)]
    rw [findSplit_at_head "---".data b.data (by decide)]
    simp
  have hsplit : pySplit3 "---" ("---" ++ (h ++ ("---" ++ b))) = ["", h, b] := by
    unfold pySplit3
    rw [hf1]
    show (match findSplit "---".data (h.data ++ ("---".data ++ b.data)) with
      | none => [("" : String), ⟨h.data ++ ("---".data ++ b.data)⟩]
      | some (x, y) => ["", ⟨x⟩, ⟨y⟩]) = ["", h, b]
    rw [hf2]
  rw [hsplit]
  show ((yamlLoad h).getD [], pyStrip b) = ([], pyStrip b)
  rw [hy]
  rfl

theorem sectionsLine_heading (secs : Sections) (key : SectionKey) (acc : List String)
    (line : String) (hstart : pyStartsWith "## " (pyStrip line) = true) (hacc : acc ≠ []) :
    sectionsLine (secs, some key, acc) line =
      (flushMid secs key (pyStrip (pyJoin "\n" acc)),
       classifySection (pyLower (pyStrip (strDrop (pyStrip line) 3))), []) := by
  unfold sectionsLine
  rw [if_pos hstart]
  simp [hacc]

/-- C7: with two About headings in one body, each followed by non-empty
non-heading content, the segmenter's about entry is the second heading's
accumulated content — last write wins, and only one entry per canonical
key is retained (the result structure has a single about field). -/
theorem c7_last_write_wins (l1 l2 : List String) (hne1 : l1 ≠ []) (hne2 : l2 ≠ [])
    (h1 : ∀ l ∈ l1, pyStartsWith "## " (pyStrip l) = false ∧ pyStrip l ≠ "" ∧
      ∀ c ∈ l.data, c ≠ '\n')
    (h2 : ∀ l ∈ l2, pyStartsWith "## " (pyStrip l) = false ∧ pyStrip l ≠ "" ∧
      ∀ c ∈ l.data, c ≠ '\n') :
    (parse_markdown_sections
        (pyJoin "\n" ("## About" :: (l1 ++ "## About" :: l2)))).about =
      pyStrip (pyJoin "\n" l2) := by
  have hlines : pySplitNl (pyJoin "\n" ("## About" :: (l1 ++ "## About" :: l2))) =
      "## About" :: (l1 ++ "## About" :: l2) := by
    apply pySplitNl_join _ (by simp)
    intro l hl
    simp only [List.mem_cons, List.mem_append] at hl
    rcases hl with rfl | hl | hl
    · decide
    · exact (h1 l hl).2.2
    · rcases hl with rfl | hl
      · decide
      · exact (h2 l hl).2.2
  unfold parse_markdown_sections
  rw [hlines, List.foldl_cons]
  rw [show sectionsLine (({} : Sections), none, []) "## About" =
      (({} : Sections), some SectionKey.about, []) from by decide]
  rw [List.foldl_append]
  rw [foldl_sectionsLine_accum l1 {} SectionKey.about []
    (fun l hl => ⟨(h1 l hl).1, (h1 l hl).2.1⟩)]
  rw [List.foldl_cons]
  rw [sectionsLine_heading {} SectionKey.about ([] ++ l1) "## About" (by decide)
    (by simpa using hne1)]
  rw [show classifySection (pyLower (pyStrip (strDrop (pyStrip "## About") 3))) =
      some SectionKey.about from by decide]
  rw [foldl_sectionsLine_accum l2 _ SectionKey.about []
    (fun l hl => ⟨(h2 l hl).1, (h2 l hl).2.1⟩)]
  simp only [List.nil_append]
  rw [if_pos hne2]
  simp [flushEnd, flushMid]

/-- C7 (witness). -/
theorem c7_last_write_wins_witness :
    (["old text"] ≠ ([] : List String) ∧ ["new text"] ≠ ([] : List String) ∧
     (∀ l ∈ ["old text"], pyStartsWith "## " (pyStrip l) = false ∧ pyStrip l ≠ "" ∧
       ∀ c ∈ l.data, c ≠ '\n') ∧
     (∀ l ∈ ["new text"], pyStartsWith "## " (pyStrip l) = false ∧ pyStrip l ≠ "" ∧
       ∀ c ∈ l.data, c ≠ '\n')) ∧
    (parse_markdown_sections
        (pyJoin "\n" ("## About" :: (["old text"] ++ "## About" :: ["new text"])))).about =
      pyStrip (pyJoin "\n" ["new text"]) :=
  ⟨⟨by decide, by decide, by decide, by decide⟩,
   c7_last_write_wins ["old text"] ["new text"] (by decide) (by decide) (by decide) (by decide)⟩

/-- A line that switches `current_field` away from the abstract: only the
Key Achievements and Links labels do so (a fresh Abstract label would
switch it back, which the theorems below exclude by hypothesis). -/
def abstractStopLine (l : String) : Bool :=
  pyStartsWith "**Key Achievements:**" (pyStrip l) || pyStartsWith "**Links:**" (pyStrip l)

/-- A line the abstract actually accumulates: non-empty after stripping,
not a bold-label line, not a bullet line. -/
def abstractKeepLine (l : String) : Bool :=
  (pyStrip l != "") && !pyStartsWith "**" (pyStrip l) && !pyStartsWith "- " (pyStrip l)

/-- Modelled from the claim as amended: the abstract is the space-joined
accumulation of the kept lines up to the first field-switching label. -/
def abstractSpec (a0 : String) (ls : List String) : String :=
  ((ls.takeWhile (fun l => !abstractStopLine l)).filter abstractKeepLine).foldl
    (fun acc l => if acc ≠ "" then acc ++ " " ++ pyStrip l else pyStrip l) (pyStrip a0)

theorem startsL_append_of_le (p x t : List Char) (h : p.length ≤ x.length) :
    startsL p (x ++ t) = startsL p x := by
  induction p generalizing x with
  | nil => simp [startsL]
  | cons c ps ih =>
    cases x with
    | nil => simp at h
    | cons d xs =>
      simp only [List.cons_append, startsL, List.append_eq]
      rw [ih xs (by simpa using h)]

theorem pyStartsWith_lit (p X y : String) (h : p.data.length ≤ X.data.length) :
    pyStartsWith p (X ++ y) = pyStartsWith p X := by
  unfold pyStartsWith
  rw [String.data_append]
  exact startsL_append_of_le p.data X.data y.data h

theorem projLinkLine_abstract (p : Project) (t : String) :
    (projLinkLine p t).abstract = p.abstract := by
  unfold projLinkLine
  dsimp only
  repeat' split
  all_goals rfl

/-- Once the current field is away from the abstract and no line carries a
fresh Abstract label, the abstract text never changes again. -/
theorem foldl_projLine_no_abstract (ls : List String) (p : Project) (cf : Option ProjField)
    (hcf : cf ≠ some ProjField.abstract)
    (hls : ∀ l ∈ ls, pyStartsWith "**Abstract:**" (pyStrip l) = false) :
    (ls.foldl projLine (p, cf)).1.abstract = p.abstract := by
  induction ls generalizing p cf with
  | nil => rfl
  | cons l ls' ih =>
    rw [List.foldl_cons]
    have hstep : (projLine (p, cf) l).1.abstract = p.abstract ∧
        (projLine (p, cf) l).2 ≠ some ProjField.abstract := by
      unfold projLine
      simp only
      by_cases c1 : pyStartsWith "**Title:**" (pyStrip l) = true
      · simp [c1, hcf]
      · simp only [c1, if_false, Bool.not_eq_true] at *
        rw [if_neg (by simp [c1])]
        by_cases c2 : pyStartsWith "**Tags:**" (pyStrip l) = true
        · simp [c2, hcf]
        · rw [if_neg (by simp [c2])]
          rw [if_neg (by simp [hls l (by simp)])]
          by_cases c4 : (pyStartsWith "**Technologies Used:**" (pyStrip l) ||
              pyStartsWith "**Technologies:**" (pyStrip l)) = true
          · simp [c4, hcf]
          · rw [if_neg (by simp_all)]
            by_cases c5 : pyStartsWith "**Key Achievements:**" (pyStrip l) = true
            · simp [c5]
            · rw [if_neg (by simp [c5])]
              by_cases c6 : pyStartsWith "**Links:**" (pyStrip l) = true
              · simp [c6]
              · rw [if_neg (by simp [c6])]
                by_cases c7 : pyStartsWith "- " (pyStrip l) = true
                · rw [if_pos c7]
                  cases cf with
                  | none => simp
                  | some f =>
                    cases f with
                    | abstract => exact absurd rfl hcf
                    | achievements => simp
                    | links => exact ⟨projLinkLine_abstract p _, by simp⟩
                · rw [if_neg (by simp [c7])]
                  rw [if_neg (by simp [hcf])]
                  simp [hcf]
    rw [ih _ _ hstep.2 (fun x hx => hls x (by simp [hx]))]
    exact hstep.1

theorem startsL_trans (q p s : List Char) (h1 : startsL q p = true)
    (h2 : startsL p s = true) : startsL q s = true := by
  obtain ⟨t1, rfl⟩ := (startsL_iff q p).1 h1
  obtain ⟨t2, rfl⟩ := (startsL_iff (q ++ t1) s).1 h2
  rw [List.append_assoc]
  exact startsL_append_self q (t1 ++ t2)

theorem pyStartsWith_trans (q p s : String) (h1 : pyStartsWith q p = true)
    (h2 : pyStartsWith p s = true) : pyStartsWith q s = true :=
  startsL_trans q.data p.data s.data h1 h2

theorem startsL_conflict (p q s : List Char) (hp : startsL p s = true)
    (hq : startsL q s = true) (hlen : p.length ≤ q.length) : startsL p q = true := by
  obtain ⟨t1, he1⟩ := (startsL_iff p s).1 hp
  obtain ⟨t2, he2⟩ := (startsL_iff q s).1 hq
  have hpq : p = q.take p.length := by
    have h2 : (p ++ t1).take p.length = (q ++ t2).take p.length := by rw [← he1, ← he2]
    rw [List.take_left, List.take_append_of_le_length hlen] at h2
    exact h2
  have h3 := List.take_append_drop p.length q
  rw [← hpq] at h3
  exact (startsL_iff p q).2 ⟨q.drop p.length, h3.symm⟩

theorem pyStartsWith_conflict (p q s : String) (hp : pyStartsWith p s = true)
    (hq : pyStartsWith q s = true) (hlen : p.data.length ≤ q.data.length) :
    pyStartsWith p q = true :=
  startsL_conflict p.data q.data s.data hp hq hlen

theorem not_pyStartsWith_short (p q s : String) (hq : pyStartsWith q s = true)
    (hlen : p.data.length ≤ q.data.length) (hpq : pyStartsWith p q = false) :
    ¬ (pyStartsWith p s = true) := fun hp =>
  absurd (pyStartsWith_conflict p q s hp hq hlen) (by simp [hpq])

theorem not_pyStartsWith_long (p q s : String) (hq : pyStartsWith q s = true)
    (hlen : q.data.length ≤ p.data.length) (hqp : pyStartsWith q p = false) :
    ¬ (pyStartsWith p s = true) := fun hp =>
  absurd (pyStartsWith_conflict q p s hq hp hlen) (by simp [hqp])

/-- In abstract mode, the fold over lines with no fresh Abstract label
accumulates exactly the kept lines up to the first field-switch. -/
theorem foldl_projLine_abstract (ls : List String) (p : Project)
    (hls : ∀ l ∈ ls, pyStartsWith "**Abstract:**" (pyStrip l) = false) :
    (ls.foldl projLine (p, some ProjField.abstract)).1.abstract =
      ((ls.takeWhile (fun l => !abstractStopLine l)).filter abstractKeepLine).foldl
        (fun acc l => if acc ≠ "" then acc ++ " " ++ pyStrip l else pyStrip l)
        p.abstract := by
  induction ls generalizing p with
  | nil => rfl
  | cons l ls' ih =>
    rw [List.foldl_cons]
    by_cases hstop : abstractStopLine l = true
    · have htw : (l :: ls').takeWhile (fun x => !abstractStopLine x) = [] := by
        rw [List.takeWhile_cons, hstop]
        simp
      rw [htw]
      simp only [List.filter_nil, List.foldl_nil]
      rcases Bool.or_eq_true_iff.1 (by simpa [abstractStopLine] using hstop) with hKA | hLk
      · have hc1 := not_pyStartsWith_short "**Title:**" "**Key Achievements:**" (pyStrip l)
          hKA (by decide) (by decide)
        have hc2 := not_pyStartsWith_short "**Tags:**" "**Key Achievements:**" (pyStrip l)
          hKA (by decide) (by decide)
        have hc3 : ¬ (pyStartsWith "**Abstract:**" (pyStrip l) = true) := by
          simp [hls l (by simp)]
        have hc4a := not_pyStartsWith_long "**Technologies Used:**" "**Key Achievements:**"
          (pyStrip l) hKA (by decide) (by decide)
        have hc4b := not_pyStartsWith_short "**Technologies:**" "**Key Achievements:**"
          (pyStrip l) hKA (by decide) (by decide)
        have hproj : projLine (p, some ProjField.abstract) l =
            (p, some ProjField.achievements) := by
          unfold projLine
          dsimp only
          rw [if_neg hc1, if_neg hc2, if_neg hc3, if_neg (by simp [hc4a, hc4b]), if_pos hKA]
        rw [hproj]
        exact foldl_projLine_no_abstract ls' p (some ProjField.achievements) (by simp)
          (fun x hx => hls x (by simp [hx]))
      · have hd1 := not_pyStartsWith_short "**Title:**" "**Links:**" (pyStrip l)
          hLk (by decide) (by decide)
        have hd2 := not_pyStartsWith_short "**Tags:**" "**Links:**" (pyStrip l)
          hLk (by decide) (by decide)
        have hd3 : ¬ (pyStartsWith "**Abstract:**" (pyStrip l) = true) := by
          simp [hls l (by simp)]
        have hd4a := not_pyStartsWith_long "**Technologies Used:**" "**Links:**"
          (pyStrip l) hLk (by decide) (by decide)
        have hd4b := not_pyStartsWith_long "**Technologies:**" "**Links:**"
          (pyStrip l) hLk (by decide) (by decide)
        have hd5 := not_pyStartsWith_long "**Key Achievements:**" "**Links:**"
          (pyStrip l) hLk (by decide) (by decide)
        have hproj : projLine (p, some ProjField.abstract) l = (p, some ProjField.links) := by
          unfold projLine
          dsimp only
          rw [if_neg hd1, if_neg hd2, if_neg hd3, if_neg (by simp [hd4a, hd4b]),
            if_neg hd5, if_pos hLk]
        rw [hproj]
        exact foldl_projLine_no_abstract ls' p (some ProjField.links) (by simp)
          (fun x hx => hls x (by simp [hx]))
    · have hstop' : abstractStopLine l = false := by simpa using hstop
      have hboth : pyStartsWith "**Key Achievements:**" (pyStrip l) = false ∧
          pyStartsWith "**Links:**" (pyStrip l) = false := by
        have h := hstop'
        unfold abstractStopLine at h
        exact ⟨(Bool.or_eq_false_iff.1 h).1, (Bool.or_eq_false_iff.1 h).2⟩
      have htw : (l :: ls').takeWhile (fun x => !abstractStopLine x) =
          l :: ls'.takeWhile (fun x => !abstractStopLine x) := by
        rw [List.takeWhile_cons, hstop']
        simp
      rw [htw, List.filter_cons]
      have hIH := fun (p' : Project) => ih p' (fun x hx => hls x (by simp [hx]))
      by_cases c1 : pyStartsWith "**Title:**" (pyStrip l) = true
      · have hkeep : abstractKeepLine l = false := by
          unfold abstractKeepLine
          rw [pyStartsWith_trans "**" "**Title:**" (pyStrip l) (by decide) c1]
          simp
        rw [if_neg (show ¬ (abstractKeepLine l = true) by simp [hkeep])]
        have hproj : projLine (p, some ProjField.abstract) l =
            ({ p with title := pyStrip (strDrop (pyStrip l) 10) }, some ProjField.abstract) := by
          unfold projLine
          dsimp only
          rw [if_pos c1]
        rw [hproj, hIH _]
      · by_cases c2 : pyStartsWith "**Tags:**" (pyStrip l) = true
        · have hkeep : abstractKeepLine l = false := by
            unfold abstractKeepLine
            rw [pyStartsWith_trans "**" "**Tags:**" (pyStrip l) (by decide) c2]
            simp
          rw [if_neg (show ¬ (abstractKeepLine l = true) by simp [hkeep])]
          have hproj : projLine (p, some ProjField.abstract) l =
              ({ p with tags := ((pySplitChar ',' (pyStrip (strDrop (pyStrip l) 9))).map
                  pyStrip).filter (· ≠ "") }, some ProjField.abstract) := by
            unfold projLine
            dsimp only
            rw [if_neg c1, if_pos c2]
          rw [hproj, hIH _]
        · have c3 : ¬ (pyStartsWith "**Abstract:**" (pyStrip l) = true) := by
            simp [hls l (by simp)]
          by_cases c4 : (pyStartsWith "**Technologies Used:**" (pyStrip l) ||
              pyStartsWith "**Technologies:**" (pyStrip l)) = true
          · have h2star : pyStartsWith "**" (pyStrip l) = true := by
              rcases Bool.or_eq_true_iff.1 c4 with h | h
              · exact pyStartsWith_trans "**" "**Technologies Used:**" (pyStrip l) (by decide) h
              · exact pyStartsWith_trans "**" "**Technologies:**" (pyStrip l) (by decide) h
            have hkeep : abstractKeepLine l = false := by
              unfold abstractKeepLine
              rw [h2star]
              simp
            rw [if_neg (show ¬ (abstractKeepLine l = true) by simp [hkeep])]
            have hproj : projLine (p, some ProjField.abstract) l =
                ({ p with technologies :=
                    pyStrip ⟨(afterFirstChar ':' (pyStrip l).data).getD []⟩ },
                 some ProjField.abstract) := by
              unfold projLine
              dsimp only
              rw [if_neg c1, if_neg c2, if_neg c3, if_pos c4]
            rw [hproj, hIH _]
          · by_cases c7 : pyStartsWith "- " (pyStrip l) = true
            · have hkeep : abstractKeepLine l = false := by
                unfold abstractKeepLine
                rw [c7]
                simp
              rw [if_neg (show ¬ (abstractKeepLine l = true) by simp [hkeep])]
              have hproj : projLine (p, some ProjField.abstract) l =
                  (p, some ProjField.abstract) := by
                unfold projLine
                dsimp only
                rw [if_neg c1, if_neg c2, if_neg c3, if_neg (by simp [c4]),
                  if_neg (by simp [hboth.1]), if_neg (by simp [hboth.2]), if_pos c7]
              rw [hproj, hIH _]
            · by_cases cE : pyStrip l = ""
              · have hkeep : abstractKeepLine l = false := by
                  unfold abstractKeepLine
                  rw [cE]
                  simp
                rw [if_neg (show ¬ (abstractKeepLine l = true) by simp [hkeep])]
                have hproj : projLine (p, some ProjField.abstract) l =
                    (p, some ProjField.abstract) := by
                  unfold projLine
                  dsimp only
                  rw [if_neg c1, if_neg c2, if_neg c3, if_neg (by simp [c4]),
                    if_neg (by simp [hboth.1]), if_neg (by simp [hboth.2]),
                    if_neg (by simp [c7]), if_neg (by simp [cE])]
                rw [hproj, hIH _]
              · by_cases cB : pyStartsWith "**" (pyStrip l) = true
                · have hkeep : abstractKeepLine l = false := by
                    unfold abstractKeepLine
                    rw [cB]
                    simp
                  rw [if_neg (show ¬ (abstractKeepLine l = true) by simp [hkeep])]
                  have hproj : projLine (p, some ProjField.abstract) l =
                      (p, some ProjField.abstract) := by
                    unfold projLine
                    dsimp only
                    rw [if_neg c1, if_neg c2, if_neg c3, if_neg (by simp [c4]),
                      if_neg (by simp [hboth.1]), if_neg (by simp [hboth.2]),
                      if_neg (by simp [c7]), if_neg (by simp [cB])]
                  rw [hproj, hIH _]
                · have hkeep : abstractKeepLine l = true := by
                    unfold abstractKeepLine
                    simp [cE, cB, c7]
                  rw [if_pos (show abstractKeepLine l = true from hkeep)]
                  have hproj : projLine (p, some ProjField.abstract) l =
                      (if p.abstract ≠ "" then
                        { p with abstract := p.abstract ++ " " ++ pyStrip l }
                       else { p with abstract := pyStrip l }, some ProjField.abstract) := by
                    unfold projLine
                    dsimp only
                    rw [if_neg c1, if_neg c2, if_neg c3, if_neg (by simp [c4]),
                      if_neg (by simp [hboth.1]), if_neg (by simp [hboth.2]),
                      if_neg (by simp [c7]), if_pos (by simp [cE, cB])]
                  rw [hproj, List.foldl_cons]
                  by_cases hAb : p.abstract ≠ ""
                  · rw [if_pos hAb, if_pos hAb, hIH _]
                  · rw [if_neg hAb, if_neg hAb, hIH _]


/-- C5 (counterexample): abstract accumulation does not stop at the next
recognized label: a Technologies label leaves the current field on the
abstract, so a later plain line is still appended; and a bullet line,
although neither empty nor a label, is not accumulated.  Both contradict
the claim, under which the first input would give abstract "A". -/
theorem c5_counterexample :
    (parse_project_section "**Abstract:** A\n**Technologies:** T\nB").abstract = "A B" ∧
    (parse_project_section "**Abstract:** A\n**Technologies:** T\nB").abstract ≠ "A" ∧
    (parse_project_section "**Abstract:** A\n- bullet\nC").abstract = "A C" := by
  refine ⟨by decide, by decide, by decide⟩

/-- C5 (amended): in a project section starting with the Abstract label,
the abstract accumulates exactly the stripped lines that are non-empty,
not bold-label lines and not bullet lines, up to the first label that
moves the current field off the abstract (Key Achievements or Links; a
Technologies or Title label does not stop accumulation), space-joined
onto the label line's own remainder.  In particular an empty Abstract
label directly followed by a Technologies label yields an empty abstract,
without any error. -/
theorem c5_abstract_amended (a0 : String) (ls : List String)
    (hnl0 : ∀ c ∈ a0.data, c ≠ '\n') (htr0 : noTrailWs a0)
    (hls : ∀ l ∈ ls, (∀ c ∈ l.data, c ≠ '\n') ∧
      pyStartsWith "**Abstract:**" (pyStrip l) = false) :
    (parse_project_section (pyJoin "\n" (("**Abstract:**" ++ a0) :: ls))).abstract =
      abstractSpec a0 ls := by
  have hsplit : pySplitNl (pyJoin "\n" (("**Abstract:**" ++ a0) :: ls)) =
      ("**Abstract:**" ++ a0) :: ls := by
    apply pySplitNl_join _ (by simp)
    intro l hl
    simp only [List.mem_cons] at hl
    rcases hl with rfl | hl
    · intro c hc
      rw [String.data_append] at hc
      rcases List.mem_append.1 hc with hc | hc
      · exact (show ∀ d ∈ ("**Abstract:**" : String).data, d ≠ '\n' by decide) c hc
      · exact hnl0 c hc
    · exact (hls l hl).1
  have hstrip0 : pyStrip ("**Abstract:**" ++ a0) = "**Abstract:**" ++ a0 :=
    pyStrip_append "**Abstract:**" a0 (by decide) (by decide) htr0 (fun _ => by decide)
  have hdrop : strDrop ("**Abstract:**" ++ a0) 13 = a0 := by
    rw [show (13 : Nat) = ("**Abstract:**" : String).data.length from rfl]
    exact strDrop_append "**Abstract:**" a0
  have hproj0 : projLine (({} : Project), none) ("**Abstract:**" ++ a0) =
      ({ abstract := pyStrip a0 }, some ProjField.abstract) := by
    unfold projLine
    dsimp only
    rw [hstrip0]
    rw [if_neg (by rw [pyStartsWith_lit "**Title:**" "**Abstract:**" a0 (by decide)]; decide)]
    rw [if_neg (by rw [pyStartsWith_lit "**Tags:**" "**Abstract:**" a0 (by decide)]; decide)]
    rw [if_pos (by rw [pyStartsWith_lit "**Abstract:**" "**Abstract:**" a0 (by decide)]; decide)]
    rw [hdrop]
  unfold parse_project_section
  rw [hsplit, List.foldl_cons, hproj0]
  rw [foldl_projLine_abstract ls _ (fun l hl => (hls l hl).2)]
  rfl

/-- C5 (witness). -/
theorem c5_abstract_amended_witness :
    ((∀ c ∈ (" A" : String).data, c ≠ '\n') ∧ noTrailWs " A" ∧
     (∀ l ∈ ["**Technologies:** T", "B"], (∀ c ∈ l.data, c ≠ '\n') ∧
       pyStartsWith "**Abstract:**" (pyStrip l) = false)) ∧
    (parse_project_section
        (pyJoin "\n" (("**Abstract:**" ++ " A") :: ["**Technologies:** T", "B"]))).abstract =
      abstractSpec " A" ["**Technologies:** T", "B"] :=
  ⟨⟨by decide, by decide, by decide⟩,
   c5_abstract_amended " A" ["**Technologies:** T", "B"] (by decide) (by decide) (by decide)⟩

/-- The needle occurs as a contiguous substring of the haystack. -/
def StrContains (needle hay : String) : Prop := ∃ p q, hay = p ++ needle ++ q

theorem noTrailWs_append (X y : String) (hy : noTrailWs y) (hyne : y.data ≠ []) :
    noTrailWs (X ++ y) := by
  unfold noTrailWs at *
  rw [String.data_append, List.reverse_append, List.dropWhile_append,
    if_neg (by rw [hy]; simpa using hyne), hy]

theorem startsL_false_of_head_notin (h0 : Char) (hr : List Char) (a t : List Char)
    (ha : ∀ ch ∈ a, ch ≠ h0) :
    ∀ q, q < a.length → startsL (h0 :: hr) (a.drop q ++ t) = false := by
  intro q hq
  cases hd : a.drop q with
  | nil =>
    have := List.length_drop q a
    rw [hd] at this
    simp at this
    omega
  | cons ch rest =>
    have hmem : ch ∈ a := List.drop_subset q a (hd ▸ List.mem_cons_self ch rest)
    rw [List.cons_append]
    show startsL (h0 :: hr) (ch :: (rest ++ t)) = false
    unfold startsL
    rw [Bool.and_eq_false_iff]
    left
    simpa using Ne.symm (ha ch hmem)

theorem mdLinkAux_cons (c : Char) (cs : List Char) :
    mdLinkAux (c :: cs) =
      if startsL [']', '('] (c :: cs) then
        match takeUntilChar ')' (cs.drop 1) with
        | some u => some u
        | none => mdLinkAux (cs.drop 1)
      else mdLinkAux cs := by
  rw [mdLinkAux]

theorem mdLinkAux_skip (a t : List Char)
    (h : ∀ q, q < a.length → startsL [']', '('] (a.drop q ++ t) = false) :
    mdLinkAux (a ++ t) = mdLinkAux t := by
  induction a with
  | nil => simp
  | cons c cs ih =>
    rw [List.cons_append, mdLinkAux_cons, if_neg (by simpa using h 0 (by simp))]
    exact ih fun q hq => by simpa using h (q + 1) (by simpa using hq)

theorem mdLinkAux_hit (u r : List Char) (hu : ∀ ch ∈ u, ch ≠ ')') :
    mdLinkAux (']' :: '(' :: (u ++ ')' :: r)) = some u := by
  rw [mdLinkAux_cons, if_pos (by simp [startsL])]
  show (match takeUntilChar ')' (u ++ ')' :: r) with
    | some x => some x
    | none => mdLinkAux (u ++ ')' :: r)) = some u
  rw [takeUntilChar_append ')' u r hu]

theorem mdLinkUrlChars_head (rest : List Char) (u : List Char)
    (hx : mdLinkAux rest = some u) : mdLinkUrlChars ('[' :: rest) = some u := by
  rw [mdLinkUrlChars]
  rw [if_pos (by decide)]
  rw [hx]

set_option maxRecDepth 100000 in
/-- C4 (counterexample): with a parsed github link and placeholder "#"
report/slides URLs, the live renderer emits the report button as an
enabled anchor to "#" (target _blank, active red styling) and emits no
disabled/greyed styling at all, contradicting the claim that
placeholder-URL buttons are rendered disabled. -/
theorem c4_counterexample :
    pyIn "<a href=\"#\" target=\"_blank\"" (links_html
      [("github", "https://github.com/a/b"), ("presentation", "#"), ("report", "#"),
       ("slides", "#"), ("demo", "#")]) = true ∧
    pyIn "bg-red-600" (links_html
      [("github", "https://github.com/a/b"), ("presentation", "#"), ("report", "#"),
       ("slides", "#"), ("demo", "#")]) = true ∧
    pyIn "cursor-not-allowed" (links_html
      [("github", "https://github.com/a/b"), ("presentation", "#"), ("report", "#"),
       ("slides", "#"), ("demo", "#")]) = false ∧
    pyIn "disabled" (links_html
      [("github", "https://github.com/a/b"), ("presentation", "#"), ("report", "#"),
       ("slides", "#"), ("demo", "#")]) = false := by
  refine ⟨by decide, by decide, by decide, by decide⟩

/-- Helper: a startswith test fails when the head characters differ. -/
theorem pyStartsWith_ne_head (p s : String) (pc c : Char) (pr cr : List Char)
    (hp : p.data = pc :: pr) (hs : s.data = c :: cr) (h : (pc == c) = false) :
    pyStartsWith p s = false := by
  unfold pyStartsWith
  rw [hp, hs]
  simp [startsL, h]

set_option maxRecDepth 100000 in
/-- C4 (amended): the parser claim holds as stated — a Links bullet whose
text carries the github keyword sets the github URL from the markdown
link, leaving report and slides at the placeholder "#" — but the renderer
(generate_enhanced_project_html, the live path) treats the placeholder "#"
as a truthy URL and renders the corresponding action button as an enabled
anchor to "#", not as a disabled/greyed control. -/
theorem c4_github_link_and_render (u : String)
    (hup : ∀ ch ∈ u.data, ch ≠ ')') (hun : ∀ ch ∈ u.data, ch ≠ '\n') :
    ((parse_project_section (pyJoin "\n"
        ["**Links:**", "- [GitHub Repository](" ++ u ++ ")"])).github = u ∧
     (parse_project_section (pyJoin "\n"
        ["**Links:**", "- [GitHub Repository](" ++ u ++ ")"])).report = "#" ∧
     (parse_project_section (pyJoin "\n"
        ["**Links:**", "- [GitHub Repository](" ++ u ++ ")"])).slides = "#") ∧
    (∀ urls : List (String × String),
      urls.find? (fun kv => kv.1 == "report") = some ("report", "#") →
      StrContains ("\n            <a href=\"" ++ "#" ++
        "\" target=\"_blank\"\n               class=\"inline-flex items-center px-4 py-2 bg-red-600 text-white rounded-lg hover:bg-red-700 transition duration-300\">\n                <i class=\"fas fa-file-pdf mr-2\"></i> Project Report\n            </a>\n            ")
        (links_html urls)) := by
  constructor
  · have hR : pyStrip ("[GitHub Repository](" ++ (u ++ ")")) =
        "[GitHub Repository](" ++ (u ++ ")") := by
      apply pyStrip_append _ _ (by decide) (by decide)
      · exact noTrailWs_append u ")" (by decide) (by decide)
      · intro hd
        rw [String.data_append] at hd
        simp at hd
    have hLdata : ("- " ++ ("[GitHub Repository](" ++ (u ++ ")")) : String).data =
        '-' :: ' ' :: ("[GitHub Repository](" ++ (u ++ ")") : String).data := by
      rw [String.data_append]
      rfl
    have hLstrip : pyStrip ("- " ++ ("[GitHub Repository](" ++ (u ++ ")"))) =
        "- " ++ ("[GitHub Repository](" ++ (u ++ ")")) := by
      apply pyStrip_append _ _ (by decide) (by decide)
      · exact noTrailWs_append "[GitHub Repository](" (u ++ ")")
          (noTrailWs_append u ")" (by decide) (by decide))
          (by rw [String.data_append]; simp)
      · intro hd
        rw [String.data_append] at hd
        simp at hd
    have hlow : pyLower ("[GitHub Repository](" ++ (u ++ ")")) =
        "[" ++ "github" ++ (" repository](" ++ (pyLower u ++ ")")) := by
      rw [pyLower_append, pyLower_append]
      rw [show pyLower "[GitHub Repository](" = "[github repository](" from by decide]
      rw [show pyLower ")" = ")" from by decide]
      rw [show ("[github repository](" : String) =
        ("[" ++ "github") ++ " repository](" from by decide]
      rw [strAppend_assoc]
    have hmd : mdLinkUrl ("[GitHub Repository](" ++ (u ++ ")")) = some u := by
      have hdata : ("[GitHub Repository](" ++ (u ++ ")") : String).data =
          '[' :: (("GitHub Repository" : String).data ++ (']' :: '(' :: (u.data ++ [')']))) := by
        rw [String.data_append, String.data_append]
        rw [show ("[GitHub Repository](" : String).data =
          ('[' :: ("GitHub Repository" : String).data) ++ [']', '('] from by decide]
        rw [show (")" : String).data = [')'] from by decide]
        simp
      have hx : mdLinkAux (("GitHub Repository" : String).data ++
          (']' :: '(' :: (u.data ++ [')']))) = some u.data := by
        rw [mdLinkAux_skip _ _ (startsL_false_of_head_notin ']' ['('] _ _ (by decide))]
        exact mdLinkAux_hit u.data [] hup
      unfold mdLinkUrl
      rw [hdata, mdLinkUrlChars_head _ u.data hx]
      rfl
    have hsplit : pySplitNl (pyJoin "\n"
        ["**Links:**", "- [GitHub Repository](" ++ u ++ ")"]) =
        ["**Links:**", "- [GitHub Repository](" ++ u ++ ")"] := by
      apply pySplitNl_join _ (by simp)
      intro l hl ch hch
      simp only [List.mem_cons] at hl
      rcases hl with rfl | hl
      · exact (show ∀ d ∈ ("**Links:**" : String).data, d ≠ '\n' from by decide) ch hch
      · rcases hl with rfl | hl
        · rw [String.data_append, String.data_append] at hch
          rcases List.mem_append.1 hch with hm | hm
          · rcases List.mem_append.1 hm with hm2 | hm2
            · exact (show ∀ d ∈ ("- [GitHub Repository](" : String).data, d ≠ '\n'
                from by decide) ch hm2
            · exact hun ch hm2
          · exact (show ∀ d ∈ (")" : String).data, d ≠ '\n' from by decide) ch hm
        · simp at hl
    have hassoc : ("- [GitHub Repository](" ++ u ++ ")" : String) =
        "- " ++ ("[GitHub Repository](" ++ (u ++ ")")) := by
      rw [strAppend_assoc]
      rw [show ("- [GitHub Repository](" : String) = "- " ++ "[GitHub Repository](" from by decide]
      rw [strAppend_assoc]
    have hline1 : projLine (({} : Project), none) "**Links:**" =
        (({} : Project), some ProjField.links) := by decide
    have hline2 : projLine (({} : Project), some ProjField.links)
        ("- " ++ ("[GitHub Repository](" ++ (u ++ ")"))) =
        ({ github := u }, some ProjField.links) := by
      unfold projLine
      dsimp only
      rw [hLstrip]
      rw [pyStartsWith_ne_head "**Title:**" _ '*' '-' _ _ rfl hLdata (by decide)]
      rw [pyStartsWith_ne_head "**Tags:**" _ '*' '-' _ _ rfl hLdata (by decide)]
      rw [pyStartsWith_ne_head "**Abstract:**" _ '*' '-' _ _ rfl hLdata (by decide)]
      rw [pyStartsWith_ne_head "**Technologies Used:**" _ '*' '-' _ _ rfl hLdata (by decide)]
      rw [pyStartsWith_ne_head "**Technologies:**" _ '*' '-' _ _ rfl hLdata (by decide)]
      rw [pyStartsWith_ne_head "**Key Achievements:**" _ '*' '-' _ _ rfl hLdata (by decide)]
      rw [pyStartsWith_ne_head "**Links:**" _ '*' '-' _ _ rfl hLdata (by decide)]
      simp only [Bool.or_self, if_false, Bool.false_eq_true]
      rw [if_pos (pyStartsWith_parts "- " ("[GitHub Repository](" ++ (u ++ ")")))]
      have hdrop : strDrop ("- " ++ ("[GitHub Repository](" ++ (u ++ ")"))) 2 =
          "[GitHub Repository](" ++ (u ++ ")") := by
        rw [show (2 : Nat) = ("- " : String).data.length from rfl]
        exact strDrop_append "- " _
      rw [hdrop, hR]
      show (projLinkLine {} ("[GitHub Repository](" ++ (u ++ ")")),
        some ProjField.links) = ({ github := u }, some ProjField.links)
      unfold projLinkLine
      dsimp only
      rw [if_pos (by rw [hlow]; exact pyIn_parts "github" "[" _ (by decide))]
      rw [hmd]
    have hres : parse_project_section (pyJoin "\n"
        ["**Links:**", "- [GitHub Repository](" ++ u ++ ")"]) = { github := u } := by
      unfold parse_project_section
      rw [hsplit]
      rw [show (["**Links:**", "- [GitHub Repository](" ++ u ++ ")"].foldl
          projLine ({}, none)) =
        projLine (projLine ({}, none) "**Links:**")
          ("- [GitHub Repository](" ++ u ++ ")") from rfl]
      rw [hline1, hassoc, hline2]
    exact ⟨by rw [hres], by rw [hres], by rw [hres]⟩
  · intro urls hrep
    have htr : pyGetTruthy urls "report" = true := by
      unfold pyGetTruthy
      rw [hrep]
      decide
    have hstr : pyGetStr urls "report" = "#" := by
      unfold pyGetStr
      rw [hrep]
    have hany : urls.any (fun kv => kv.2 ≠ "") = true := by
      rw [List.any_eq_true]
      exact ⟨("report", "#"), List.mem_of_find?_eq_some hrep, by decide⟩
    unfold links_html
    rw [if_pos hany, if_pos htr, hstr]
    refine ⟨"<div class=\"flex flex-wrap gap-3 mt-6\">" ++
      (if pyGetTruthy urls "github" = true then
        "\n            <a href=\"" ++ pyGetStr urls "github" ++
        "\" target=\"_blank\" \n               class=\"inline-flex items-center px-4 py-2 bg-gray-800 text-white rounded-lg hover:bg-gray-700 transition duration-300\">\n                <i class=\"fab fa-github mr-2\"></i> GitHub Repository\n            </a>\n            "
       else "") ++
      (if pyGetTruthy urls "presentation" = true then
        "\n            <a href=\"" ++ pyGetStr urls "presentation" ++
        "\" target=\"_blank\"\n               class=\"inline-flex items-center px-4 py-2 bg-blue-600 text-white rounded-lg hover:bg-blue-700 transition duration-300\">\n                <i class=\"fas fa-presentation-screen mr-2\"></i> Presentation\n            </a>\n            "
       else ""), "</div>", ?_⟩
    apply string_eq_of_data
    simp [String.data_append, List.append_assoc]


set_option maxRecDepth 100000 in
/-- C4 (witness). -/
theorem c4_github_link_and_render_witness :
    ((∀ ch ∈ ("https://github.com/a/b" : String).data, ch ≠ ')') ∧
     (∀ ch ∈ ("https://github.com/a/b" : String).data, ch ≠ '\n')) ∧
    (((parse_project_section (pyJoin "\n"
        ["**Links:**", "- [GitHub Repository](" ++ "https://github.com/a/b" ++ ")"])).github =
        "https://github.com/a/b" ∧
      (parse_project_section (pyJoin "\n"
        ["**Links:**", "- [GitHub Repository](" ++ "https://github.com/a/b" ++ ")"])).report = "#" ∧
      (parse_project_section (pyJoin "\n"
        ["**Links:**", "- [GitHub Repository](" ++ "https://github.com/a/b" ++ ")"])).slides = "#") ∧
     (∀ urls : List (String × String),
      urls.find? (fun kv => kv.1 == "report") = some ("report", "#") →
      StrContains ("\n            <a href=\"" ++ "#" ++
        "\" target=\"_blank\"\n               class=\"inline-flex items-center px-4 py-2 bg-red-600 text-white rounded-lg hover:bg-red-700 transition duration-300\">\n                <i class=\"fas fa-file-pdf mr-2\"></i> Project Report\n            </a>\n            ")
        (links_html urls))) :=
  ⟨⟨by decide, by decide⟩,
   c4_github_link_and_render "https://github.com/a/b" (by decide) (by decide)⟩

/-! ## Lemma library: the merge-engine scanners -/

theorem subPracticumF_none (H new s : List Char) (h : startsL H s = false) :
    subPracticumF H new s = none := by
  unfold subPracticumF
  rw [if_neg (by simp [h])]

theorem subFieldF_none (L new s : List Char) (h : startsL L s = false) :
    subFieldF L new s = none := by
  unfold subFieldF
  rw [if_neg (by simp [h])]

theorem replaceLitF_none (pat new s : List Char) (h : startsL pat s = false) :
    replaceLitF pat new s = none := by
  unfold replaceLitF
  rw [if_neg (by simp [h])]

theorem scanRepl_subPracticumF (H new b c : List Char) (hHne : H ≠ [])
    (hb : ∀ q, q < b.length → lookaheadHit (b.drop q ++ c) = false)
    (hc : lookaheadHit c = true) :
    scanRepl (subPracticumF H new) (H ++ (b ++ c)) =
      new ++ scanRepl (subPracticumF H new) c := by
  cases H with
  | nil => exact absurd rfl hHne
  | cons h0 hr =>
    have hf : subPracticumF (h0 :: hr) new ((h0 :: hr) ++ (b ++ c)) =
        some ((h0 :: hr).length + b.length - 1, new) := by
      unfold subPracticumF
      rw [if_pos (startsL_append_self _ _)]
      rw [List.drop_left, findEnd_append b c hb hc]
    rw [List.cons_append]
    rw [scanRepl_match _ h0 (hr ++ (b ++ c)) _ _ (by rw [← List.cons_append]; exact hf)]
    congr 1
    have h1 : (h0 :: hr).length + b.length - 1 = (hr ++ b).length := by
      simp only [List.length_cons, List.length_append]
      omega
    rw [h1, ← List.append_assoc, List.drop_left]

theorem scanRepl_subFieldF (L new v r : List Char) (hLne : L ≠ [])
    (hv : ∀ ch ∈ v, ch ≠ '"' ∧ ch ≠ '\n') :
    scanRepl (subFieldF L new) (L ++ (v ++ '"' :: r)) =
      new ++ scanRepl (subFieldF L new) r := by
  cases L with
  | nil => exact absurd rfl hLne
  | cons l0 lr =>
    have hf : subFieldF (l0 :: lr) new ((l0 :: lr) ++ (v ++ '"' :: r)) =
        some ((l0 :: lr).length + v.length, new) := by
      unfold subFieldF
      rw [if_pos (startsL_append_self _ _)]
      rw [List.drop_left, findQuote_append v r hv]
    rw [List.cons_append]
    rw [scanRepl_match _ l0 (lr ++ (v ++ '"' :: r)) _ _ (by rw [← List.cons_append]; exact hf)]
    congr 1
    have h1 : lr ++ (v ++ '"' :: r) = ((lr ++ v) ++ ['"']) ++ r := by simp
    have h2 : (l0 :: lr).length + v.length = ((lr ++ v) ++ ['"']).length := by
      simp only [List.length_cons, List.length_append, List.length_nil]
      omega
    rw [h1, h2, List.drop_left]

theorem scanRepl_replaceLitF (pat new r : List Char) (hne : pat ≠ []) :
    scanRepl (replaceLitF pat new) (pat ++ r) =
      new ++ scanRepl (replaceLitF pat new) r := by
  cases pat with
  | nil => exact absurd rfl hne
  | cons p0 pr =>
    have hf : replaceLitF (p0 :: pr) new ((p0 :: pr) ++ r) =
        some ((p0 :: pr).length - 1, new) := by
      unfold replaceLitF
      rw [if_pos (startsL_append_self _ _)]
    rw [List.cons_append]
    rw [scanRepl_match _ p0 (pr ++ r) _ _ (by rw [← List.cons_append]; exact hf)]
    congr 1
    have h1 : (p0 :: pr).length - 1 = pr.length := by simp
    rw [h1, List.drop_left]

/-- One full pass of a front-matter field substitution over a document
with exactly one pattern match: prefix and suffix are untouched, the
label..closing-quote span is replaced. -/
theorem subField_frame (L new x v z : List Char) (hLne : L ≠ [])
    (hx : ∀ q, q < x.length → startsL L (x.drop q ++ (L ++ (v ++ '"' :: z))) = false)
    (hv : ∀ ch ∈ v, ch ≠ '"' ∧ ch ≠ '\n')
    (hz : ∀ q, q < z.length → startsL L (z.drop q) = false) :
    scanRepl (subFieldF L new) (x ++ (L ++ (v ++ '"' :: z))) = x ++ (new ++ z) := by
  rw [scanRepl_skip _ x _ (fun q hq => subFieldF_none L new _ (hx q hq))]
  rw [scanRepl_subFieldF L new v z hLne hv]
  rw [scanRepl_self _ z (fun q hq => subFieldF_none L new _ (hz q hq))]

/-- No match of `pat` starts inside `a` when `a` is followed by `t`. -/
def noStartIn (pat a t : String) : Prop :=
  ∀ q, q < a.data.length → startsL pat.data (a.data.drop q ++ t.data) = false

/-- No lookahead hit of the practicum regex occurs inside `b` when `b` is
followed by `t` (the regex body cannot end early inside `b`). -/
def noSpanEndIn (b t : String) : Prop :=
  ∀ q, q < b.data.length → lookaheadHit (b.data.drop q ++ t.data) = false

/-- Boolean scanner deciding `noStartIn` (linear, shallow evaluation). -/
def noStartB (pat t : List Char) : List Char → Bool
  | [] => true
  | c :: cs => !startsL pat (c :: cs ++ t) && noStartB pat t cs

/-- Boolean scanner deciding `noSpanEndIn`. -/
def noSpanEndB (t : List Char) : List Char → Bool
  | [] => true
  | c :: cs => !lookaheadHit (c :: cs ++ t) && noSpanEndB t cs

theorem noStartB_iff (pat t l : List Char) :
    noStartB pat t l = true ↔ ∀ q, q < l.length → startsL pat (l.drop q ++ t) = false := by
  induction l with
  | nil => simp [noStartB]
  | cons c cs ih =>
    simp only [noStartB, Bool.and_eq_true, Bool.not_eq_true']
    constructor
    · rintro ⟨h0, hrest⟩ q hq
      cases q with
      | zero => simpa using h0
      | succ q' => exact (ih.1 hrest) q' (by simpa using hq)
    · intro h
      exact ⟨by simpa using h 0 (by simp), ih.2 fun q hq => by
        simpa using h (q + 1) (by simpa using hq)⟩

theorem noSpanEndB_iff (t l : List Char) :
    noSpanEndB t l = true ↔ ∀ q, q < l.length → lookaheadHit (l.drop q ++ t) = false := by
  induction l with
  | nil => simp [noSpanEndB]
  | cons c cs ih =>
    simp only [noSpanEndB, Bool.and_eq_true, Bool.not_eq_true']
    constructor
    · rintro ⟨h0, hrest⟩ q hq
      cases q with
      | zero => simpa using h0
      | succ q' => exact (ih.1 hrest) q' (by simpa using hq)
    · intro h
      exact ⟨by simpa using h 0 (by simp), ih.2 fun q hq => by
        simpa using h (q + 1) (by simpa using hq)⟩

instance (pat a t : String) : Decidable (noStartIn pat a t) :=
  decidable_of_iff _ (noStartB_iff pat.data t.data a.data)

instance (b t : String) : Decidable (noSpanEndIn b t) :=
  decidable_of_iff _ (noSpanEndB_iff t.data b.data)

theorem practicumHeading_data (cn pn : String) :
    (practicumHeading cn pn).data =
      '#' :: '#' :: ' ' :: (cn.data ++ ((" - Practicum " : String).data ++
        (pn.data ++ ['\n', '\n']))) := by
  unfold practicumHeading
  simp only [String.data_append, List.append_assoc]
  rfl

theorem practicumHeading_ne_nil (cn pn : String) : (practicumHeading cn pn).data ≠ [] := by
  rw [practicumHeading_data]
  simp

theorem lookaheadHit_nl_heading (cn pn : String) (X : List Char) :
    lookaheadHit ('\n' :: ((practicumHeading cn pn).data ++ X)) = true := by
  unfold lookaheadHit
  rw [practicumHeading_data]
  simp [startsL]

theorem lookaheadHit_nlHH (X : List Char) :
    lookaheadHit ('\n' :: '#' :: '#' :: ' ' :: X) = true := by
  simp [lookaheadHit, startsL]

theorem startsL_heading_nl (cn pn : String) (X : List Char) :
    startsL (practicumHeading cn pn).data ('\n' :: X) = false := by
  rw [practicumHeading_data]
  simp [startsL]

/-- C10: when the existing document contains two spans matching the same
practicum pattern, the regex substitution of `update_existing_profile`
replaces both spans with the newly rendered section text, not only the
first occurrence (the front-matter patterns being absent, the field
substitutions change nothing else). -/
theorem c10_sub_replaces_every_span (a b1 b2 y : String)
    (practica : List (String × String × String))
    (username github course semester year pn title : String) (tags : List String)
    (hc : pyIn "msds692" (pyLower course) = true)
    (hex : practica.any (fun p => p.1 == "MSDS 692") = true)
    (ha : noStartIn (practicumHeading "MSDS 692" pn) a
      (practicumHeading "MSDS 692" pn ++ b1 ++ "\n" ++ practicumHeading "MSDS 692" pn ++
        b2 ++ "\n## " ++ y))
    (hb1 : noSpanEndIn b1
      ("\n" ++ practicumHeading "MSDS 692" pn ++ b2 ++ "\n## " ++ y))
    (hb2 : noSpanEndIn b2 ("\n## " ++ y))
    (hy2 : noStartIn (practicumHeading "MSDS 692" pn) ("\n## " ++ y) "")
    (hL1 : noStartIn "current_course: \""
      (a ++ mkNewSection "MSDS 692" pn title semester year tags github username ++ "\n" ++
        mkNewSection "MSDS 692" pn title semester year tags github username ++ "\n## " ++ y) "")
    (hL2 : noStartIn "current_semester: \""
      (a ++ mkNewSection "MSDS 692" pn title semester year tags github username ++ "\n" ++
        mkNewSection "MSDS 692" pn title semester year tags github username ++ "\n## " ++ y) "") :
    update_existing_profile
      (a ++ practicumHeading "MSDS 692" pn ++ b1 ++ "\n" ++ practicumHeading "MSDS 692" pn ++
        b2 ++ "\n## " ++ y)
      practica username github course semester year pn title tags =
    a ++ mkNewSection "MSDS 692" pn title semester year tags github username ++ "\n" ++
      mkNewSection "MSDS 692" pn title semester year tags github username ++ "\n## " ++ y := by
  have hcourse : (if pyIn "msds692" (pyLower course) = true then "MSDS 692" else "MSDS 696") =
      "MSDS 692" := by
    rw [hc]
    simp
  unfold update_existing_profile
  dsimp only
  rw [hcourse, hex]
  rw [if_pos rfl]
  set NS := mkNewSection "MSDS 692" pn title semester year tags github username with hNS
  set H := practicumHeading "MSDS 692" pn with hH
  have hb1' := hb1
  have hb2' := hb2
  have ha' := ha
  have hy2' := hy2
  unfold noSpanEndIn at hb1' hb2'
  unfold noStartIn at ha' hy2'
  simp only [String.data_append, List.append_assoc, List.append_nil,
    show ("\n" : String).data = ['\n'] from rfl,
    show ("\n## " : String).data = ['\n', '#', '#', ' '] from rfl,
    show ("" : String).data = [] from rfl,
    List.cons_append, List.nil_append, List.singleton_append] at ha' hb1' hb2' hy2'
  have h1 : subPracticum H NS
      (a ++ H ++ b1 ++ "\n" ++ H ++ b2 ++ "\n## " ++ y) =
      a ++ NS ++ "\n" ++ NS ++ "\n## " ++ y := by
    unfold subPracticum
    apply string_eq_of_data
    show scanRepl (subPracticumF H.data NS.data)
        (a ++ H ++ b1 ++ "\n" ++ H ++ b2 ++ "\n## " ++ y).data =
      (a ++ NS ++ "\n" ++ NS ++ "\n## " ++ y).data
    have hdoc : (a ++ H ++ b1 ++ "\n" ++ H ++ b2 ++ "\n## " ++ y).data =
        a.data ++ (H.data ++ (b1.data ++ ('\n' ::
          (H.data ++ (b2.data ++ ('\n' :: '#' :: '#' :: ' ' :: y.data)))))) := by
      simp only [String.data_append, List.append_assoc,
        show ("\n" : String).data = ['\n'] from rfl,
        show ("\n## " : String).data = ['\n', '#', '#', ' '] from rfl,
        List.cons_append, List.nil_append, List.singleton_append]
    rw [hdoc]
    rw [scanRepl_skip _ a.data _ (fun q hq => subPracticumF_none _ _ _ (ha' q hq))]
    rw [scanRepl_subPracticumF H.data NS.data b1.data _
      (by rw [hH]; exact practicumHeading_ne_nil _ _)
      (fun q hq => hb1' q hq)
      (by rw [hH]; exact lookaheadHit_nl_heading _ _ _)]
    rw [show ('\n' :: (H.data ++ (b2.data ++ ('\n' :: '#' :: '#' :: ' ' :: y.data)))) =
      ['\n'] ++ (H.data ++ (b2.data ++ ('\n' :: '#' :: '#' :: ' ' :: y.data))) from rfl]
    rw [scanRepl_skip _ ['\n'] _ (fun q hq => by
      have hq0 : q = 0 := by simpa using hq
      subst hq0
      exact subPracticumF_none _ _ _ (by rw [hH]; exact startsL_heading_nl _ _ _))]
    rw [scanRepl_subPracticumF H.data NS.data b2.data _
      (by rw [hH]; exact practicumHeading_ne_nil _ _)
      (fun q hq => hb2' q hq)
      (lookaheadHit_nlHH _)]
    rw [scanRepl_self _ _ (fun q hq => subPracticumF_none _ _ _ (hy2' q hq))]
    simp only [String.data_append, List.append_assoc,
      show ("\n" : String).data = ['\n'] from rfl,
      show ("\n## " : String).data = ['\n', '#', '#', ' '] from rfl,
      List.cons_append, List.nil_append, List.singleton_append]
  rw [h1]
  have hL1' := hL1
  have hL2' := hL2
  unfold noStartIn at hL1' hL2'
  simp only [List.append_nil, show ("" : String).data = [] from rfl] at hL1' hL2'
  have h2 : subField "current_course: \""
      ("current_course: \"" ++ "MSDS 692" ++ "\"")
      (a ++ NS ++ "\n" ++ NS ++ "\n## " ++ y) =
      a ++ NS ++ "\n" ++ NS ++ "\n## " ++ y := by
    unfold subField
    apply string_eq_of_data
    exact scanRepl_self _ _ (fun q hq => subFieldF_none _ _ _ (hL1' q hq))
  have h3 : subField "current_semester: \""
      ("current_semester: \"" ++ pyTitle semester ++ " " ++ year ++ "\"")
      (a ++ NS ++ "\n" ++ NS ++ "\n## " ++ y) =
      a ++ NS ++ "\n" ++ NS ++ "\n## " ++ y := by
    unfold subField
    apply string_eq_of_data
    exact scanRepl_self _ _ (fun q hq => subFieldF_none _ _ _ (hL2' q hq))
  rw [h2]
  rw [h3]

set_option maxRecDepth 100000 in
/-- C10 (witness). -/
theorem c10_sub_replaces_every_span_witness :
    (pyIn "msds692" (pyLower "msds692") = true ∧
     ([("MSDS 692", "I", "x")].any (fun p => p.1 == "MSDS 692")) = true ∧
     noStartIn (practicumHeading "MSDS 692" "I") "---\nheader\n---\n\n"
       (practicumHeading "MSDS 692" "I" ++ "**Title:** Old1\n" ++ "\n" ++
        practicumHeading "MSDS 692" "I" ++ "**Title:** Old2\n" ++ "\n## " ++
        "Contact\n\ntext") ∧
     noSpanEndIn "**Title:** Old1\n"
       ("\n" ++ practicumHeading "MSDS 692" "I" ++ "**Title:** Old2\n" ++ "\n## " ++
        "Contact\n\ntext") ∧
     noSpanEndIn "**Title:** Old2\n" ("\n## " ++ "Contact\n\ntext") ∧
     noStartIn (practicumHeading "MSDS 692" "I") ("\n## " ++ "Contact\n\ntext") "" ∧
     noStartIn "current_course: \""
       ("---\nheader\n---\n\n" ++
        mkNewSection "MSDS 692" "I" "New" "summer" "2025" ["Data Science"] "" "u1" ++ "\n" ++
        mkNewSection "MSDS 692" "I" "New" "summer" "2025" ["Data Science"] "" "u1" ++ "\n## " ++
        "Contact\n\ntext") "" ∧
     noStartIn "current_semester: \""
       ("---\nheader\n---\n\n" ++
        mkNewSection "MSDS 692" "I" "New" "summer" "2025" ["Data Science"] "" "u1" ++ "\n" ++
        mkNewSection "MSDS 692" "I" "New" "summer" "2025" ["Data Science"] "" "u1" ++ "\n## " ++
        "Contact\n\ntext") "") ∧
    update_existing_profile
      ("---\nheader\n---\n\n" ++ practicumHeading "MSDS 692" "I" ++ "**Title:** Old1\n" ++
       "\n" ++ practicumHeading "MSDS 692" "I" ++ "**Title:** Old2\n" ++ "\n## " ++
       "Contact\n\ntext")
      [("MSDS 692", "I", "x")] "u1" "" "msds692" "summer" "2025" "I" "New" ["Data Science"] =
    "---\nheader\n---\n\n" ++
      mkNewSection "MSDS 692" "I" "New" "summer" "2025" ["Data Science"] "" "u1" ++ "\n" ++
      mkNewSection "MSDS 692" "I" "New" "summer" "2025" ["Data Science"] "" "u1" ++ "\n## " ++
      "Contact\n\ntext" :=
  ⟨⟨by decide, by decide, by decide, by decide, by decide, by decide, by decide, by decide⟩,
   c10_sub_replaces_every_span "---\nheader\n---\n\n" "**Title:** Old1\n" "**Title:** Old2\n"
     "Contact\n\ntext" [("MSDS 692", "I", "x")] "u1" "" "msds692" "summer" "2025" "I" "New"
     ["Data Science"] (by decide) (by decide) (by decide) (by decide) (by decide) (by decide)
     (by decide) (by decide)⟩



theorem pyIn_eq_false (n h : String) (hn : noStartIn n h "") : pyIn n h = false := by
  unfold pyIn
  rw [findSplit_none n.data h.data (fun q hq => by simpa using hn q hq)]
  rfl

set_option maxRecDepth 100000 in
/-- C1 (counterexample): the front-matter field substitutions of
`update_existing_profile` are applied to the whole document, not only to
the header block: an occurrence of the `current_course: "..."` pattern
inside the About section's own text is rewritten by the merge, so a
section other than the target practicum section is not preserved
byte-for-byte. -/
theorem c1_counterexample :
    pyIn "uses current_course: \"X\" here"
      "---\ncurrent_course: \"MSDS 692\"\ncurrent_semester: \"Spring 2025\"\n---\n\n## About Me\n\nuses current_course: \"X\" here\n\n## MSDS 692 - Practicum I\n\n**Title:** Old\n\n## Contact\n\nemail" = true ∧
    pyIn "uses current_course: \"X\" here"
      (update_existing_profile
        "---\ncurrent_course: \"MSDS 692\"\ncurrent_semester: \"Spring 2025\"\n---\n\n## About Me\n\nuses current_course: \"X\" here\n\n## MSDS 692 - Practicum I\n\n**Title:** Old\n\n## Contact\n\nemail"
        [("MSDS 692", "I", "x")] "u1" "" "msds692" "summer" "2025" "I" "New"
        ["Data Science"]) = false ∧
    pyIn "uses current_course: \"MSDS 692\" here"
      (update_existing_profile
        "---\ncurrent_course: \"MSDS 692\"\ncurrent_semester: \"Spring 2025\"\n---\n\n## About Me\n\nuses current_course: \"X\" here\n\n## MSDS 692 - Practicum I\n\n**Title:** Old\n\n## Contact\n\nemail"
        [("MSDS 692", "I", "x")] "u1" "" "msds692" "summer" "2025" "I" "New"
        ["Data Science"]) = true :=
  ⟨by decide, pyIn_eq_false _ _ (by decide), by decide⟩

/-- Replace branch of `update_existing_profile`: a practicum span matches;
the matched span becomes the newly rendered section, each occurrence of the
two front-matter field patterns (here exactly one of each) gets the new
course and semester values, and every other byte is preserved. -/
theorem update_frame_replace
    (p c0 m s0 a b y : String) (practica : List (String × String × String))
    (username github course semester year pn title : String) (tags : List String)
    (hc : pyIn "msds692" (pyLower course) = true)
    (hex : practica.any (fun pr => pr.1 == "MSDS 692") = true)
    (hHp : noStartIn (practicumHeading "MSDS 692" pn)
      (p ++ "current_course: \"" ++ c0 ++ "\"" ++ m ++ "current_semester: \"" ++ s0 ++ "\"" ++ a)
      (practicumHeading "MSDS 692" pn ++ b ++ "\n## " ++ y))
    (hb : noSpanEndIn b ("\n## " ++ y))
    (hy : noStartIn (practicumHeading "MSDS 692" pn) ("\n## " ++ y) "")
    (hc0 : ∀ ch ∈ c0.data, ch ≠ '"' ∧ ch ≠ '\n')
    (hs0 : ∀ ch ∈ s0.data, ch ≠ '"' ∧ ch ≠ '\n')
    (hL1p : noStartIn "current_course: \"" p
      ("current_course: \"" ++ c0 ++ "\"" ++ m ++ "current_semester: \"" ++ s0 ++ "\"" ++ a ++
        mkNewSection "MSDS 692" pn title semester year tags github username ++ "\n## " ++ y))
    (hL1z : noStartIn "current_course: \""
      (m ++ "current_semester: \"" ++ s0 ++ "\"" ++ a ++
        mkNewSection "MSDS 692" pn title semester year tags github username ++ "\n## " ++ y) "")
    (hL2p : noStartIn "current_semester: \""
      (p ++ "current_course: \"" ++ "MSDS 692" ++ "\"" ++ m)
      ("current_semester: \"" ++ s0 ++ "\"" ++ a ++
        mkNewSection "MSDS 692" pn title semester year tags github username ++ "\n## " ++ y))
    (hL2z : noStartIn "current_semester: \""
      (a ++ mkNewSection "MSDS 692" pn title semester year tags github username ++ "\n## " ++ y)
      "") :
    update_existing_profile
      (p ++ "current_course: \"" ++ c0 ++ "\"" ++ m ++ "current_semester: \"" ++ s0 ++ "\"" ++
        a ++ practicumHeading "MSDS 692" pn ++ b ++ "\n## " ++ y)
      practica username github course semester year pn title tags =
    p ++ "current_course: \"" ++ "MSDS 692" ++ "\"" ++ m ++
      "current_semester: \"" ++ pyTitle semester ++ " " ++ year ++ "\"" ++ a ++
      mkNewSection "MSDS 692" pn title semester year tags github username ++ "\n## " ++ y := by
  have hcourse : (if pyIn "msds692" (pyLower course) = true then "MSDS 692" else "MSDS 696") =
      "MSDS 692" := by
    rw [hc]
    simp
  unfold update_existing_profile
  dsimp only
  rw [hcourse, hex]
  rw [if_pos rfl]
  have hHp' := hHp
  have hb' := hb
  have hy' := hy
  have hL1p' := hL1p
  have hL1z' := hL1z
  have hL2p' := hL2p
  have hL2z' := hL2z
  obtain ⟨NS, hNS⟩ : ∃ x : String,
      x = mkNewSection "MSDS 692" pn title semester year tags github username := ⟨_, rfl⟩
  obtain ⟨H, hHs⟩ : ∃ x : String, x = practicumHeading "MSDS 692" pn := ⟨_, rfl⟩
  obtain ⟨L1, hL1d⟩ : ∃ x : String, x = "current_course: \"" := ⟨_, rfl⟩
  obtain ⟨L2, hL2d⟩ : ∃ x : String, x = "current_semester: \"" := ⟨_, rfl⟩
  rw [← hHs, ← hL1d, ← hL2d] at hHp'
  rw [← hHs] at hy'
  rw [← hL1d, ← hL2d, ← hNS] at hL1p' hL1z' hL2p'
  rw [← hL2d, ← hNS] at hL2z'
  rw [← hNS, ← hHs, ← hL1d, ← hL2d]
  unfold noStartIn at hHp' hy'
  unfold noSpanEndIn at hb'
  simp only [String.data_append, List.append_assoc, List.append_nil,
    List.cons_append, List.nil_append, List.singleton_append] at hHp' hb' hy'
  have h1 : subPracticum H NS
      (p ++ L1 ++ c0 ++ "\"" ++ m ++ L2 ++ s0 ++ "\"" ++ a ++ H ++ b ++ "\n## " ++ y) =
      p ++ L1 ++ c0 ++ "\"" ++ m ++ L2 ++ s0 ++ "\"" ++ a ++ NS ++ "\n## " ++ y := by
    unfold subPracticum
    apply string_eq_of_data
    show scanRepl (subPracticumF H.data NS.data)
        (p ++ L1 ++ c0 ++ "\"" ++ m ++ L2 ++ s0 ++ "\"" ++ a ++ H ++ b ++ "\n## " ++ y).data =
      (p ++ L1 ++ c0 ++ "\"" ++ m ++ L2 ++ s0 ++ "\"" ++ a ++ NS ++ "\n## " ++ y).data
    have hdoc : (p ++ L1 ++ c0 ++ "\"" ++ m ++ L2 ++ s0 ++ "\"" ++ a ++ H ++ b ++ "\n## " ++
        y).data =
        (p.data ++ (L1.data ++ (c0.data ++ '"' :: (m.data ++ (L2.data ++ (s0.data ++ '"' ::
          a.data)))))) ++
        (H.data ++ (b.data ++ '\n' :: '#' :: '#' :: ' ' :: y.data)) := by
      simp only [String.data_append, List.append_assoc,
        List.cons_append, List.nil_append, List.singleton_append]
    rw [hdoc]
    rw [scanRepl_skip _
      (p.data ++ (L1.data ++ (c0.data ++ '"' :: (m.data ++ (L2.data ++ (s0.data ++ '"' ::
        a.data)))))) _
      (fun q hq => subPracticumF_none _ _ _ (hHp' q hq))]
    rw [scanRepl_subPracticumF H.data NS.data b.data _
      (by rw [hHs]; exact practicumHeading_ne_nil _ _)
      (fun q hq => hb' q hq)
      (lookaheadHit_nlHH _)]
    rw [scanRepl_self _ _ (fun q hq => subPracticumF_none _ _ _ (hy' q hq))]
    simp only [String.data_append, List.append_assoc,
      List.cons_append, List.nil_append, List.singleton_append]
  rw [h1]
  unfold noStartIn at hL1p' hL1z'
  simp only [String.data_append, List.append_assoc, List.append_nil,
    List.cons_append, List.nil_append, List.singleton_append] at hL1p' hL1z'
  have h2 : subField L1 (L1 ++ "MSDS 692" ++ "\"")
      (p ++ L1 ++ c0 ++ "\"" ++ m ++ L2 ++ s0 ++ "\"" ++ a ++ NS ++ "\n## " ++ y) =
      p ++ L1 ++ "MSDS 692" ++ "\"" ++ m ++ L2 ++ s0 ++ "\"" ++ a ++ NS ++ "\n## " ++ y := by
    unfold subField
    apply string_eq_of_data
    show scanRepl (subFieldF L1.data (L1 ++ "MSDS 692" ++ "\"").data)
        (p ++ L1 ++ c0 ++ "\"" ++ m ++ L2 ++ s0 ++ "\"" ++ a ++ NS ++ "\n## " ++ y).data =
      (p ++ L1 ++ "MSDS 692" ++ "\"" ++ m ++ L2 ++ s0 ++ "\"" ++ a ++ NS ++ "\n## " ++ y).data
    have hd1 : (p ++ L1 ++ c0 ++ "\"" ++ m ++ L2 ++ s0 ++ "\"" ++ a ++ NS ++ "\n## " ++
        y).data =
        p.data ++ (L1.data ++ (c0.data ++ '"' :: (m.data ++ (L2.data ++ (s0.data ++ '"' ::
          (a.data ++ (NS.data ++ '\n' :: '#' :: '#' :: ' ' :: y.data))))))) := by
      simp only [String.data_append, List.append_assoc,
        List.cons_append, List.nil_append, List.singleton_append]
    rw [hd1]
    rw [scanRepl_skip _ p.data _ (fun q hq => subFieldF_none _ _ _ (hL1p' q hq))]
    rw [scanRepl_subFieldF L1.data (L1 ++ "MSDS 692" ++ "\"").data c0.data _
      (by rw [hL1d]; decide) hc0]
    rw [scanRepl_self _ _ (fun q hq => subFieldF_none _ _ _ (hL1z' q hq))]
    simp only [String.data_append, List.append_assoc,
      List.cons_append, List.nil_append, List.singleton_append]
  rw [h2]
  unfold noStartIn at hL2p' hL2z'
  simp only [String.data_append, List.append_assoc, List.append_nil,
    List.cons_append, List.nil_append, List.singleton_append] at hL2p' hL2z'
  have h3 : subField L2 (L2 ++ pyTitle semester ++ " " ++ year ++ "\"")
      (p ++ L1 ++ "MSDS 692" ++ "\"" ++ m ++ L2 ++ s0 ++ "\"" ++ a ++ NS ++ "\n## " ++ y) =
      p ++ L1 ++ "MSDS 692" ++ "\"" ++ m ++ L2 ++ pyTitle semester ++ " " ++ year ++ "\"" ++
        a ++ NS ++ "\n## " ++ y := by
    unfold subField
    apply string_eq_of_data
    show scanRepl (subFieldF L2.data (L2 ++ pyTitle semester ++ " " ++ year ++ "\"").data)
        (p ++ L1 ++ "MSDS 692" ++ "\"" ++ m ++ L2 ++ s0 ++ "\"" ++ a ++ NS ++ "\n## " ++
          y).data =
      (p ++ L1 ++ "MSDS 692" ++ "\"" ++ m ++ L2 ++ pyTitle semester ++ " " ++ year ++ "\"" ++
          a ++ NS ++ "\n## " ++ y).data
    have hd2 : (p ++ L1 ++ "MSDS 692" ++ "\"" ++ m ++ L2 ++ s0 ++ "\"" ++ a ++ NS ++ "\n## " ++
        y).data =
        (p.data ++ (L1.data ++ 'M' :: 'S' :: 'D' :: 'S' :: ' ' :: '6' :: '9' :: '2' :: '"' ::
          m.data)) ++
        (L2.data ++ (s0.data ++ '"' :: (a.data ++ (NS.data ++ '\n' :: '#' :: '#' :: ' ' ::
          y.data)))) := by
      simp only [String.data_append, List.append_assoc,
        List.cons_append, List.nil_append, List.singleton_append]
    rw [hd2]
    rw [scanRepl_skip _
      (p.data ++ (L1.data ++ 'M' :: 'S' :: 'D' :: 'S' :: ' ' :: '6' :: '9' :: '2' :: '"' ::
        m.data)) _
      (fun q hq => subFieldF_none _ _ _ (hL2p' q hq))]
    rw [scanRepl_subFieldF L2.data (L2 ++ pyTitle semester ++ " " ++ year ++ "\"").data s0.data _
      (by rw [hL2d]; decide) hs0]
    rw [scanRepl_self _ _ (fun q hq => subFieldF_none _ _ _ (hL2z' q hq))]
    simp only [String.data_append, List.append_assoc,
      List.cons_append, List.nil_append, List.singleton_append]
  rw [h3]

/-- Insert branch of `update_existing_profile`: no practicum span matches and
a Contact anchor is present; the rendered section preceded by a blank line is
inserted immediately before the anchor, each occurrence of the two
front-matter field patterns (here exactly one of each) gets the new course
and semester values, and every other byte is preserved. -/
theorem update_frame_insert
    (p c0 m s0 a v : String) (practica : List (String × String × String))
    (username github course semester year pn title : String) (tags : List String)
    (hc : pyIn "msds692" (pyLower course) = true)
    (hex : practica.any (fun pr => pr.1 == "MSDS 692") = false)
    (hct : noStartIn "\n## Contact\n"
      (p ++ "current_course: \"" ++ c0 ++ "\"" ++ m ++ "current_semester: \"" ++ s0 ++ "\"" ++ a)
      ("\n## Contact\n" ++ v))
    (hctv : noStartIn "\n## Contact\n" v "")
    (hc0 : ∀ ch ∈ c0.data, ch ≠ '"' ∧ ch ≠ '\n')
    (hs0 : ∀ ch ∈ s0.data, ch ≠ '"' ∧ ch ≠ '\n')
    (hL1p : noStartIn "current_course: \"" p
      ("current_course: \"" ++ c0 ++ "\"" ++ m ++ "current_semester: \"" ++ s0 ++ "\"" ++ a ++
        "\n" ++ mkNewSection "MSDS 692" pn title semester year tags github username ++
        "\n## Contact\n" ++ v))
    (hL1z : noStartIn "current_course: \""
      (m ++ "current_semester: \"" ++ s0 ++ "\"" ++ a ++ "\n" ++
        mkNewSection "MSDS 692" pn title semester year tags github username ++
        "\n## Contact\n" ++ v) "")
    (hL2p : noStartIn "current_semester: \""
      (p ++ "current_course: \"" ++ "MSDS 692" ++ "\"" ++ m)
      ("current_semester: \"" ++ s0 ++ "\"" ++ a ++ "\n" ++
        mkNewSection "MSDS 692" pn title semester year tags github username ++
        "\n## Contact\n" ++ v))
    (hL2z : noStartIn "current_semester: \""
      (a ++ "\n" ++ mkNewSection "MSDS 692" pn title semester year tags github username ++
        "\n## Contact\n" ++ v) "") :
    update_existing_profile
      (p ++ "current_course: \"" ++ c0 ++ "\"" ++ m ++ "current_semester: \"" ++ s0 ++ "\"" ++
        a ++ "\n## Contact\n" ++ v)
      practica username github course semester year pn title tags =
    p ++ "current_course: \"" ++ "MSDS 692" ++ "\"" ++ m ++
      "current_semester: \"" ++ pyTitle semester ++ " " ++ year ++ "\"" ++ a ++ "\n" ++
      mkNewSection "MSDS 692" pn title semester year tags github username ++
      "\n## Contact\n" ++ v := by
  have hcourse : (if pyIn "msds692" (pyLower course) = true then "MSDS 692" else "MSDS 696") =
      "MSDS 692" := by
    rw [hc]
    simp
  have hpy : pyIn "\n## Contact\n"
      (p ++ "current_course: \"" ++ c0 ++ "\"" ++ m ++ "current_semester: \"" ++ s0 ++ "\"" ++
        a ++ "\n## Contact\n" ++ v) = true :=
    pyIn_parts "\n## Contact\n"
      (p ++ "current_course: \"" ++ c0 ++ "\"" ++ m ++ "current_semester: \"" ++ s0 ++ "\"" ++ a)
      v (by decide)
  unfold update_existing_profile
  dsimp only
  rw [hcourse, hex]
  rw [if_neg (show ¬(false = true) by decide)]
  rw [hpy]
  rw [if_pos rfl]
  have hct' := hct
  have hctv' := hctv
  have hL1p' := hL1p
  have hL1z' := hL1z
  have hL2p' := hL2p
  have hL2z' := hL2z
  obtain ⟨NS, hNS⟩ : ∃ x : String,
      x = mkNewSection "MSDS 692" pn title semester year tags github username := ⟨_, rfl⟩
  obtain ⟨CT, hCT⟩ : ∃ x : String, x = "\n## Contact\n" := ⟨_, rfl⟩
  obtain ⟨L1, hL1d⟩ : ∃ x : String, x = "current_course: \"" := ⟨_, rfl⟩
  obtain ⟨L2, hL2d⟩ : ∃ x : String, x = "current_semester: \"" := ⟨_, rfl⟩
  rw [← hCT, ← hL1d, ← hL2d] at hct'
  rw [← hCT] at hctv'
  rw [← hCT, ← hL1d, ← hL2d, ← hNS] at hL1p' hL1z' hL2p'
  rw [← hCT, ← hL2d, ← hNS] at hL2z'
  rw [← hNS, ← hCT, ← hL1d, ← hL2d]
  unfold noStartIn at hct' hctv'
  simp only [String.data_append, List.append_assoc, List.append_nil,
    List.cons_append, List.nil_append, List.singleton_append] at hct' hctv'
  have h1 : replaceLit CT ("\n" ++ NS ++ CT)
      (p ++ L1 ++ c0 ++ "\"" ++ m ++ L2 ++ s0 ++ "\"" ++ a ++ CT ++ v) =
      p ++ L1 ++ c0 ++ "\"" ++ m ++ L2 ++ s0 ++ "\"" ++ a ++ "\n" ++ NS ++ CT ++ v := by
    unfold replaceLit
    apply string_eq_of_data
    show scanRepl (replaceLitF CT.data ("\n" ++ NS ++ CT).data)
        (p ++ L1 ++ c0 ++ "\"" ++ m ++ L2 ++ s0 ++ "\"" ++ a ++ CT ++ v).data =
      (p ++ L1 ++ c0 ++ "\"" ++ m ++ L2 ++ s0 ++ "\"" ++ a ++ "\n" ++ NS ++ CT ++ v).data
    have hdoc : (p ++ L1 ++ c0 ++ "\"" ++ m ++ L2 ++ s0 ++ "\"" ++ a ++ CT ++ v).data =
        (p.data ++ (L1.data ++ (c0.data ++ '"' :: (m.data ++ (L2.data ++ (s0.data ++ '"' ::
          a.data)))))) ++
        (CT.data ++ v.data) := by
      simp only [String.data_append, List.append_assoc,
        List.cons_append, List.nil_append, List.singleton_append]
    rw [hdoc]
    rw [scanRepl_skip _
      (p.data ++ (L1.data ++ (c0.data ++ '"' :: (m.data ++ (L2.data ++ (s0.data ++ '"' ::
        a.data)))))) _
      (fun q hq => replaceLitF_none _ _ _ (hct' q hq))]
    rw [scanRepl_replaceLitF CT.data ("\n" ++ NS ++ CT).data v.data
      (by rw [hCT]; decide)]
    rw [scanRepl_self _ _ (fun q hq => replaceLitF_none _ _ _ (hctv' q hq))]
    simp only [String.data_append, List.append_assoc,
      List.cons_append, List.nil_append, List.singleton_append]
  rw [h1]
  unfold noStartIn at hL1p' hL1z'
  simp only [String.data_append, List.append_assoc, List.append_nil,
    List.cons_append, List.nil_append, List.singleton_append] at hL1p' hL1z'
  have h2 : subField L1 (L1 ++ "MSDS 692" ++ "\"")
      (p ++ L1 ++ c0 ++ "\"" ++ m ++ L2 ++ s0 ++ "\"" ++ a ++ "\n" ++ NS ++ CT ++ v) =
      p ++ L1 ++ "MSDS 692" ++ "\"" ++ m ++ L2 ++ s0 ++ "\"" ++ a ++ "\n" ++ NS ++ CT ++ v := by
    unfold subField
    apply string_eq_of_data
    show scanRepl (subFieldF L1.data (L1 ++ "MSDS 692" ++ "\"").data)
        (p ++ L1 ++ c0 ++ "\"" ++ m ++ L2 ++ s0 ++ "\"" ++ a ++ "\n" ++ NS ++ CT ++ v).data =
      (p ++ L1 ++ "MSDS 692" ++ "\"" ++ m ++ L2 ++ s0 ++ "\"" ++ a ++ "\n" ++ NS ++ CT ++
        v).data
    have hd1 : (p ++ L1 ++ c0 ++ "\"" ++ m ++ L2 ++ s0 ++ "\"" ++ a ++ "\n" ++ NS ++ CT ++
        v).data =
        p.data ++ (L1.data ++ (c0.data ++ '"' :: (m.data ++ (L2.data ++ (s0.data ++ '"' ::
          (a.data ++ '\n' :: (NS.data ++ (CT.data ++ v.data)))))))) := by
      simp only [String.data_append, List.append_assoc,
        List.cons_append, List.nil_append, List.singleton_append]
    rw [hd1]
    rw [scanRepl_skip _ p.data _ (fun q hq => subFieldF_none _ _ _ (hL1p' q hq))]
    rw [scanRepl_subFieldF L1.data (L1 ++ "MSDS 692" ++ "\"").data c0.data _
      (by rw [hL1d]; decide) hc0]
    rw [scanRepl_self _ _ (fun q hq => subFieldF_none _ _ _ (hL1z' q hq))]
    simp only [String.data_append, List.append_assoc,
      List.cons_append, List.nil_append, List.singleton_append]
  rw [h2]
  unfold noStartIn at hL2p' hL2z'
  simp only [String.data_append, List.append_assoc, List.append_nil,
    List.cons_append, List.nil_append, List.singleton_append] at hL2p' hL2z'
  have h3 : subField L2 (L2 ++ pyTitle semester ++ " " ++ year ++ "\"")
      (p ++ L1 ++ "MSDS 692" ++ "\"" ++ m ++ L2 ++ s0 ++ "\"" ++ a ++ "\n" ++ NS ++ CT ++ v) =
      p ++ L1 ++ "MSDS 692" ++ "\"" ++ m ++ L2 ++ pyTitle semester ++ " " ++ year ++ "\"" ++
        a ++ "\n" ++ NS ++ CT ++ v := by
    unfold subField
    apply string_eq_of_data
    show scanRepl (subFieldF L2.data (L2 ++ pyTitle semester ++ " " ++ year ++ "\"").data)
        (p ++ L1 ++ "MSDS 692" ++ "\"" ++ m ++ L2 ++ s0 ++ "\"" ++ a ++ "\n" ++ NS ++ CT ++
          v).data =
      (p ++ L1 ++ "MSDS 692" ++ "\"" ++ m ++ L2 ++ pyTitle semester ++ " " ++ year ++ "\"" ++
          a ++ "\n" ++ NS ++ CT ++ v).data
    have hd2 : (p ++ L1 ++ "MSDS 692" ++ "\"" ++ m ++ L2 ++ s0 ++ "\"" ++ a ++ "\n" ++ NS ++
        CT ++ v).data =
        (p.data ++ (L1.data ++ 'M' :: 'S' :: 'D' :: 'S' :: ' ' :: '6' :: '9' :: '2' :: '"' ::
          m.data)) ++
        (L2.data ++ (s0.data ++ '"' :: (a.data ++ '\n' :: (NS.data ++ (CT.data ++
          v.data))))) := by
      simp only [String.data_append, List.append_assoc,
        List.cons_append, List.nil_append, List.singleton_append]
    rw [hd2]
    rw [scanRepl_skip _
      (p.data ++ (L1.data ++ 'M' :: 'S' :: 'D' :: 'S' :: ' ' :: '6' :: '9' :: '2' :: '"' ::
        m.data)) _
      (fun q hq => subFieldF_none _ _ _ (hL2p' q hq))]
    rw [scanRepl_subFieldF L2.data (L2 ++ pyTitle semester ++ " " ++ year ++ "\"").data s0.data _
      (by rw [hL2d]; decide) hs0]
    rw [scanRepl_self _ _ (fun q hq => subFieldF_none _ _ _ (hL2z' q hq))]
    simp only [String.data_append, List.append_assoc,
      List.cons_append, List.nil_append, List.singleton_append]
  rw [h3]

/-- Append branch of `update_existing_profile`: no practicum span matches and
no Contact anchor exists; the rendered section is appended after the
trailing-whitespace-stripped document (here one with no trailing whitespace)
behind a blank line, each occurrence of the two front-matter field patterns
(here exactly one of each) gets the new course and semester values, and
every other byte is preserved. -/
theorem update_frame_append
    (p c0 m s0 a : String) (practica : List (String × String × String))
    (username github course semester year pn title : String) (tags : List String)
    (hc : pyIn "msds692" (pyLower course) = true)
    (hex : practica.any (fun pr => pr.1 == "MSDS 692") = false)
    (hpyF : pyIn "\n## Contact\n"
      (p ++ "current_course: \"" ++ c0 ++ "\"" ++ m ++ "current_semester: \"" ++ s0 ++ "\"" ++
        a) = false)
    (hrs : pyRstrip
      (p ++ "current_course: \"" ++ c0 ++ "\"" ++ m ++ "current_semester: \"" ++ s0 ++ "\"" ++
        a) =
      p ++ "current_course: \"" ++ c0 ++ "\"" ++ m ++ "current_semester: \"" ++ s0 ++ "\"" ++ a)
    (hc0 : ∀ ch ∈ c0.data, ch ≠ '"' ∧ ch ≠ '\n')
    (hs0 : ∀ ch ∈ s0.data, ch ≠ '"' ∧ ch ≠ '\n')
    (hL1p : noStartIn "current_course: \"" p
      ("current_course: \"" ++ c0 ++ "\"" ++ m ++ "current_semester: \"" ++ s0 ++ "\"" ++ a ++
        "\n\n" ++ mkNewSection "MSDS 692" pn title semester year tags github username))
    (hL1z : noStartIn "current_course: \""
      (m ++ "current_semester: \"" ++ s0 ++ "\"" ++ a ++ "\n\n" ++
        mkNewSection "MSDS 692" pn title semester year tags github username) "")
    (hL2p : noStartIn "current_semester: \""
      (p ++ "current_course: \"" ++ "MSDS 692" ++ "\"" ++ m)
      ("current_semester: \"" ++ s0 ++ "\"" ++ a ++ "\n\n" ++
        mkNewSection "MSDS 692" pn title semester year tags github username))
    (hL2z : noStartIn "current_semester: \""
      (a ++ "\n\n" ++ mkNewSection "MSDS 692" pn title semester year tags github username)
      "") :
    update_existing_profile
      (p ++ "current_course: \"" ++ c0 ++ "\"" ++ m ++ "current_semester: \"" ++ s0 ++ "\"" ++ a)
      practica username github course semester year pn title tags =
    p ++ "current_course: \"" ++ "MSDS 692" ++ "\"" ++ m ++
      "current_semester: \"" ++ pyTitle semester ++ " " ++ year ++ "\"" ++ a ++ "\n\n" ++
      mkNewSection "MSDS 692" pn title semester year tags github username := by
  have hcourse : (if pyIn "msds692" (pyLower course) = true then "MSDS 692" else "MSDS 696") =
      "MSDS 692" := by
    rw [hc]
    simp
  unfold update_existing_profile
  dsimp only
  rw [hcourse, hex]
  rw [if_neg (show ¬(false = true) by decide)]
  rw [hpyF]
  rw [if_neg (show ¬(false = true) by decide)]
  rw [hrs]
  have hL1p' := hL1p
  have hL1z' := hL1z
  have hL2p' := hL2p
  have hL2z' := hL2z
  obtain ⟨NS, hNS⟩ : ∃ x : String,
      x = mkNewSection "MSDS 692" pn title semester year tags github username := ⟨_, rfl⟩
  obtain ⟨L1, hL1d⟩ : ∃ x : String, x = "current_course: \"" := ⟨_, rfl⟩
  obtain ⟨L2, hL2d⟩ : ∃ x : String, x = "current_semester: \"" := ⟨_, rfl⟩
  rw [← hL1d, ← hL2d, ← hNS] at hL1p' hL1z' hL2p'
  rw [← hL2d, ← hNS] at hL2z'
  rw [← hNS, ← hL1d, ← hL2d]
  unfold noStartIn at hL1p' hL1z'
  simp only [String.data_append, List.append_assoc, List.append_nil,
    List.cons_append, List.nil_append, List.singleton_append] at hL1p' hL1z'
  have h2 : subField L1 (L1 ++ "MSDS 692" ++ "\"")
      (p ++ L1 ++ c0 ++ "\"" ++ m ++ L2 ++ s0 ++ "\"" ++ a ++ "\n\n" ++ NS) =
      p ++ L1 ++ "MSDS 692" ++ "\"" ++ m ++ L2 ++ s0 ++ "\"" ++ a ++ "\n\n" ++ NS := by
    unfold subField
    apply string_eq_of_data
    show scanRepl (subFieldF L1.data (L1 ++ "MSDS 692" ++ "\"").data)
        (p ++ L1 ++ c0 ++ "\"" ++ m ++ L2 ++ s0 ++ "\"" ++ a ++ "\n\n" ++ NS).data =
      (p ++ L1 ++ "MSDS 692" ++ "\"" ++ m ++ L2 ++ s0 ++ "\"" ++ a ++ "\n\n" ++ NS).data
    have hd1 : (p ++ L1 ++ c0 ++ "\"" ++ m ++ L2 ++ s0 ++ "\"" ++ a ++ "\n\n" ++ NS).data =
        p.data ++ (L1.data ++ (c0.data ++ '"' :: (m.data ++ (L2.data ++ (s0.data ++ '"' ::
          (a.data ++ '\n' :: '\n' :: NS.data)))))) := by
      simp only [String.data_append, List.append_assoc,
        List.cons_append, List.nil_append, List.singleton_append]
    rw [hd1]
    rw [scanRepl_skip _ p.data _ (fun q hq => subFieldF_none _ _ _ (hL1p' q hq))]
    rw [scanRepl_subFieldF L1.data (L1 ++ "MSDS 692" ++ "\"").data c0.data _
      (by rw [hL1d]; decide) hc0]
    rw [scanRepl_self _ _ (fun q hq => subFieldF_none _ _ _ (hL1z' q hq))]
    simp only [String.data_append, List.append_assoc,
      List.cons_append, List.nil_append, List.singleton_append]
  rw [h2]
  unfold noStartIn at hL2p' hL2z'
  simp only [String.data_append, List.append_assoc, List.append_nil,
    List.cons_append, List.nil_append, List.singleton_append] at hL2p' hL2z'
  have h3 : subField L2 (L2 ++ pyTitle semester ++ " " ++ year ++ "\"")
      (p ++ L1 ++ "MSDS 692" ++ "\"" ++ m ++ L2 ++ s0 ++ "\"" ++ a ++ "\n\n" ++ NS) =
      p ++ L1 ++ "MSDS 692" ++ "\"" ++ m ++ L2 ++ pyTitle semester ++ " " ++ year ++ "\"" ++
        a ++ "\n\n" ++ NS := by
    unfold subField
    apply string_eq_of_data
    show scanRepl (subFieldF L2.data (L2 ++ pyTitle semester ++ " " ++ year ++ "\"").data)
        (p ++ L1 ++ "MSDS 692" ++ "\"" ++ m ++ L2 ++ s0 ++ "\"" ++ a ++ "\n\n" ++ NS).data =
      (p ++ L1 ++ "MSDS 692" ++ "\"" ++ m ++ L2 ++ pyTitle semester ++ " " ++ year ++ "\"" ++
          a ++ "\n\n" ++ NS).data
    have hd2 : (p ++ L1 ++ "MSDS 692" ++ "\"" ++ m ++ L2 ++ s0 ++ "\"" ++ a ++ "\n\n" ++
        NS).data =
        (p.data ++ (L1.data ++ 'M' :: 'S' :: 'D' :: 'S' :: ' ' :: '6' :: '9' :: '2' :: '"' ::
          m.data)) ++
        (L2.data ++ (s0.data ++ '"' :: (a.data ++ '\n' :: '\n' :: NS.data))) := by
      simp only [String.data_append, List.append_assoc,
        List.cons_append, List.nil_append, List.singleton_append]
    rw [hd2]
    rw [scanRepl_skip _
      (p.data ++ (L1.data ++ 'M' :: 'S' :: 'D' :: 'S' :: ' ' :: '6' :: '9' :: '2' :: '"' ::
        m.data)) _
      (fun q hq => subFieldF_none _ _ _ (hL2p' q hq))]
    rw [scanRepl_subFieldF L2.data (L2 ++ pyTitle semester ++ " " ++ year ++ "\"").data s0.data _
      (by rw [hL2d]; decide) hs0]
    rw [scanRepl_self _ _ (fun q hq => subFieldF_none _ _ _ (hL2z' q hq))]
    simp only [String.data_append, List.append_assoc,
      List.cons_append, List.nil_append, List.singleton_append]
  rw [h3]

/-- C1 (amended): `update_existing_profile` rewrites exactly these spans and
no others. Replace branch (a practicum span matches): the matched span
becomes the newly rendered section. Insert branch (no match, a Contact
anchor exists): the rendered section preceded by a blank line is inserted
immediately before the anchor. Append branch (no match, no Contact anchor):
the rendered section is appended after the trailing-whitespace-stripped
document behind a blank line. On every branch each occurrence of the two
front-matter field patterns anywhere in the document (here exactly one of
each) gets the new course and semester values — the field substitutions are
document-wide, not restricted to the header — and every byte outside the
rewritten spans is preserved. -/
theorem c1_frame_with_field_updates :
    (∀ (p c0 m s0 a b y : String) (practica : List (String × String × String))
      (username github course semester year pn title : String) (tags : List String),
      pyIn "msds692" (pyLower course) = true →
      practica.any (fun pr => pr.1 == "MSDS 692") = true →
      noStartIn (practicumHeading "MSDS 692" pn)
        (p ++ "current_course: \"" ++ c0 ++ "\"" ++ m ++ "current_semester: \"" ++ s0 ++ "\"" ++
          a)
        (practicumHeading "MSDS 692" pn ++ b ++ "\n## " ++ y) →
      noSpanEndIn b ("\n## " ++ y) →
      noStartIn (practicumHeading "MSDS 692" pn) ("\n## " ++ y) "" →
      (∀ ch ∈ c0.data, ch ≠ '"' ∧ ch ≠ '\n') →
      (∀ ch ∈ s0.data, ch ≠ '"' ∧ ch ≠ '\n') →
      noStartIn "current_course: \"" p
        ("current_course: \"" ++ c0 ++ "\"" ++ m ++ "current_semester: \"" ++ s0 ++ "\"" ++ a ++
          mkNewSection "MSDS 692" pn title semester year tags github username ++ "\n## " ++ y) →
      noStartIn "current_course: \""
        (m ++ "current_semester: \"" ++ s0 ++ "\"" ++ a ++
          mkNewSection "MSDS 692" pn title semester year tags github username ++ "\n## " ++ y)
        "" →
      noStartIn "current_semester: \""
        (p ++ "current_course: \"" ++ "MSDS 692" ++ "\"" ++ m)
        ("current_semester: \"" ++ s0 ++ "\"" ++ a ++
          mkNewSection "MSDS 692" pn title semester year tags github username ++ "\n## " ++ y) →
      noStartIn "current_semester: \""
        (a ++ mkNewSection "MSDS 692" pn title semester year tags github username ++ "\n## " ++
          y) "" →
      update_existing_profile
        (p ++ "current_course: \"" ++ c0 ++ "\"" ++ m ++ "current_semester: \"" ++ s0 ++ "\"" ++
          a ++ practicumHeading "MSDS 692" pn ++ b ++ "\n## " ++ y)
        practica username github course semester year pn title tags =
      p ++ "current_course: \"" ++ "MSDS 692" ++ "\"" ++ m ++
        "current_semester: \"" ++ pyTitle semester ++ " " ++ year ++ "\"" ++ a ++
        mkNewSection "MSDS 692" pn title semester year tags github username ++ "\n## " ++ y) ∧
    (∀ (p c0 m s0 a v : String) (practica : List (String × String × String))
      (username github course semester year pn title : String) (tags : List String),
      pyIn "msds692" (pyLower course) = true →
      practica.any (fun pr => pr.1 == "MSDS 692") = false →
      noStartIn "\n## Contact\n"
        (p ++ "current_course: \"" ++ c0 ++ "\"" ++ m ++ "current_semester: \"" ++ s0 ++ "\"" ++
          a)
        ("\n## Contact\n" ++ v) →
      noStartIn "\n## Contact\n" v "" →
      (∀ ch ∈ c0.data, ch ≠ '"' ∧ ch ≠ '\n') →
      (∀ ch ∈ s0.data, ch ≠ '"' ∧ ch ≠ '\n') →
      noStartIn "current_course: \"" p
        ("current_course: \"" ++ c0 ++ "\"" ++ m ++ "current_semester: \"" ++ s0 ++ "\"" ++ a ++
          "\n" ++ mkNewSection "MSDS 692" pn title semester year tags github username ++
          "\n## Contact\n" ++ v) →
      noStartIn "current_course: \""
        (m ++ "current_semester: \"" ++ s0 ++ "\"" ++ a ++ "\n" ++
          mkNewSection "MSDS 692" pn title semester year tags github username ++
          "\n## Contact\n" ++ v) "" →
      noStartIn "current_semester: \""
        (p ++ "current_course: \"" ++ "MSDS 692" ++ "\"" ++ m)
        ("current_semester: \"" ++ s0 ++ "\"" ++ a ++ "\n" ++
          mkNewSection "MSDS 692" pn title semester year tags github username ++
          "\n## Contact\n" ++ v) →
      noStartIn "current_semester: \""
        (a ++ "\n" ++ mkNewSection "MSDS 692" pn title semester year tags github username ++
          "\n## Contact\n" ++ v) "" →
      update_existing_profile
        (p ++ "current_course: \"" ++ c0 ++ "\"" ++ m ++ "current_semester: \"" ++ s0 ++ "\"" ++
          a ++ "\n## Contact\n" ++ v)
        practica username github course semester year pn title tags =
      p ++ "current_course: \"" ++ "MSDS 692" ++ "\"" ++ m ++
        "current_semester: \"" ++ pyTitle semester ++ " " ++ year ++ "\"" ++ a ++ "\n" ++
        mkNewSection "MSDS 692" pn title semester year tags github username ++
        "\n## Contact\n" ++ v) ∧
    (∀ (p c0 m s0 a : String) (practica : List (String × String × String))
      (username github course semester year pn title : String) (tags : List String),
      pyIn "msds692" (pyLower course) = true →
      practica.any (fun pr => pr.1 == "MSDS 692") = false →
      pyIn "\n## Contact\n"
        (p ++ "current_course: \"" ++ c0 ++ "\"" ++ m ++ "current_semester: \"" ++ s0 ++ "\"" ++
          a) = false →
      pyRstrip
        (p ++ "current_course: \"" ++ c0 ++ "\"" ++ m ++ "current_semester: \"" ++ s0 ++ "\"" ++
          a) =
        p ++ "current_course: \"" ++ c0 ++ "\"" ++ m ++ "current_semester: \"" ++ s0 ++ "\"" ++
          a →
      (∀ ch ∈ c0.data, ch ≠ '"' ∧ ch ≠ '\n') →
      (∀ ch ∈ s0.data, ch ≠ '"' ∧ ch ≠ '\n') →
      noStartIn "current_course: \"" p
        ("current_course: \"" ++ c0 ++ "\"" ++ m ++ "current_semester: \"" ++ s0 ++ "\"" ++ a ++
          "\n\n" ++ mkNewSection "MSDS 692" pn title semester year tags github username) →
      noStartIn "current_course: \""
        (m ++ "current_semester: \"" ++ s0 ++ "\"" ++ a ++ "\n\n" ++
          mkNewSection "MSDS 692" pn title semester year tags github username) "" →
      noStartIn "current_semester: \""
        (p ++ "current_course: \"" ++ "MSDS 692" ++ "\"" ++ m)
        ("current_semester: \"" ++ s0 ++ "\"" ++ a ++ "\n\n" ++
          mkNewSection "MSDS 692" pn title semester year tags github username) →
      noStartIn "current_semester: \""
        (a ++ "\n\n" ++ mkNewSection "MSDS 692" pn title semester year tags github username)
        "" →
      update_existing_profile
        (p ++ "current_course: \"" ++ c0 ++ "\"" ++ m ++ "current_semester: \"" ++ s0 ++ "\"" ++
          a)
        practica username github course semester year pn title tags =
      p ++ "current_course: \"" ++ "MSDS 692" ++ "\"" ++ m ++
        "current_semester: \"" ++ pyTitle semester ++ " " ++ year ++ "\"" ++ a ++ "\n\n" ++
        mkNewSection "MSDS 692" pn title semester year tags github username) :=
  ⟨update_frame_replace, update_frame_insert, update_frame_append⟩

set_option maxRecDepth 100000 in
/-- C1 (witness). -/
theorem c1_frame_with_field_updates_witness :
    ((pyIn "msds692" (pyLower "msds692") = true ∧
     ([("MSDS 692", "I", "x")].any (fun pr => pr.1 == "MSDS 692")) = true ∧
     noStartIn (practicumHeading "MSDS 692" "I")
       ("---\n" ++ "current_course: \"" ++ "MSDS 690" ++ "\"" ++ "\n" ++
        "current_semester: \"" ++ "Spring 2025" ++ "\"" ++
        "\n---\n\n## About Me\n\nSome intro text.\n\n")
       (practicumHeading "MSDS 692" "I" ++ "**Title:** Old\n" ++ "\n## " ++
        "Contact\n\nemail") ∧
     noSpanEndIn "**Title:** Old\n" ("\n## " ++ "Contact\n\nemail") ∧
     noStartIn (practicumHeading "MSDS 692" "I") ("\n## " ++ "Contact\n\nemail") "" ∧
     (∀ ch ∈ ("MSDS 690" : String).data, ch ≠ '"' ∧ ch ≠ '\n') ∧
     (∀ ch ∈ ("Spring 2025" : String).data, ch ≠ '"' ∧ ch ≠ '\n') ∧
     noStartIn "current_course: \"" "---\n"
       ("current_course: \"" ++ "MSDS 690" ++ "\"" ++ "\n" ++ "current_semester: \"" ++
        "Spring 2025" ++ "\"" ++ "\n---\n\n## About Me\n\nSome intro text.\n\n" ++
        mkNewSection "MSDS 692" "I" "New" "summer" "2025" ["Data Science"] "" "u1" ++ "\n## " ++ "Contact\n\nemail") ∧
     noStartIn "current_course: \""
       ("\n" ++ "current_semester: \"" ++ "Spring 2025" ++ "\"" ++
        "\n---\n\n## About Me\n\nSome intro text.\n\n" ++
        mkNewSection "MSDS 692" "I" "New" "summer" "2025" ["Data Science"] "" "u1" ++ "\n## " ++ "Contact\n\nemail") "" ∧
     noStartIn "current_semester: \""
       ("---\n" ++ "current_course: \"" ++ "MSDS 692" ++ "\"" ++ "\n")
       ("current_semester: \"" ++ "Spring 2025" ++ "\"" ++
        "\n---\n\n## About Me\n\nSome intro text.\n\n" ++
        mkNewSection "MSDS 692" "I" "New" "summer" "2025" ["Data Science"] "" "u1" ++ "\n## " ++ "Contact\n\nemail") ∧
     noStartIn "current_semester: \""
       ("\n---\n\n## About Me\n\nSome intro text.\n\n" ++
        mkNewSection "MSDS 692" "I" "New" "summer" "2025" ["Data Science"] "" "u1" ++ "\n## " ++ "Contact\n\nemail") "") ∧
    update_existing_profile
      ("---\n" ++ "current_course: \"" ++ "MSDS 690" ++ "\"" ++ "\n" ++
        "current_semester: \"" ++ "Spring 2025" ++ "\"" ++
        "\n---\n\n## About Me\n\nSome intro text.\n\n" ++
        practicumHeading "MSDS 692" "I" ++ "**Title:** Old\n" ++ "\n## " ++
        "Contact\n\nemail")
      [("MSDS 692", "I", "x")] "u1" "" "msds692" "summer" "2025" "I" "New" ["Data Science"] =
    "---\n" ++ "current_course: \"" ++ "MSDS 692" ++ "\"" ++ "\n" ++
      "current_semester: \"" ++ pyTitle "summer" ++ " " ++ "2025" ++ "\"" ++
      "\n---\n\n## About Me\n\nSome intro text.\n\n" ++
      mkNewSection "MSDS 692" "I" "New" "summer" "2025" ["Data Science"] "" "u1" ++ "\n## " ++ "Contact\n\nemail") ∧
    ((pyIn "msds692" (pyLower "msds692") = true ∧
     (([] : List (String × String × String)).any (fun pr => pr.1 == "MSDS 692")) = false ∧
     noStartIn "\n## Contact\n"
       ("---\n" ++ "current_course: \"" ++ "MSDS 690" ++ "\"" ++ "\n" ++
        "current_semester: \"" ++ "Spring 2025" ++ "\"" ++
        "\n---\n\n## About Me\n\nSome intro text.\n")
       ("\n## Contact\n" ++ "\nemail") ∧
     noStartIn "\n## Contact\n" "\nemail" "" ∧
     (∀ ch ∈ ("MSDS 690" : String).data, ch ≠ '"' ∧ ch ≠ '\n') ∧
     (∀ ch ∈ ("Spring 2025" : String).data, ch ≠ '"' ∧ ch ≠ '\n') ∧
     noStartIn "current_course: \"" "---\n"
       ("current_course: \"" ++ "MSDS 690" ++ "\"" ++ "\n" ++ "current_semester: \"" ++
        "Spring 2025" ++ "\"" ++ "\n---\n\n## About Me\n\nSome intro text.\n" ++ "\n" ++
        mkNewSection "MSDS 692" "I" "New" "summer" "2025" ["Data Science"] "" "u1" ++ "\n## Contact\n" ++ "\nemail") ∧
     noStartIn "current_course: \""
       ("\n" ++ "current_semester: \"" ++ "Spring 2025" ++ "\"" ++
        "\n---\n\n## About Me\n\nSome intro text.\n" ++ "\n" ++
        mkNewSection "MSDS 692" "I" "New" "summer" "2025" ["Data Science"] "" "u1" ++ "\n## Contact\n" ++ "\nemail") "" ∧
     noStartIn "current_semester: \""
       ("---\n" ++ "current_course: \"" ++ "MSDS 692" ++ "\"" ++ "\n")
       ("current_semester: \"" ++ "Spring 2025" ++ "\"" ++
        "\n---\n\n## About Me\n\nSome intro text.\n" ++ "\n" ++
        mkNewSection "MSDS 692" "I" "New" "summer" "2025" ["Data Science"] "" "u1" ++ "\n## Contact\n" ++ "\nemail") ∧
     noStartIn "current_semester: \""
       ("\n---\n\n## About Me\n\nSome intro text.\n" ++ "\n" ++
        mkNewSection "MSDS 692" "I" "New" "summer" "2025" ["Data Science"] "" "u1" ++ "\n## Contact\n" ++ "\nemail") "") ∧
    update_existing_profile
      ("---\n" ++ "current_course: \"" ++ "MSDS 690" ++ "\"" ++ "\n" ++
        "current_semester: \"" ++ "Spring 2025" ++ "\"" ++
        "\n---\n\n## About Me\n\nSome intro text.\n" ++ "\n## Contact\n" ++ "\nemail")
      [] "u1" "" "msds692" "summer" "2025" "I" "New" ["Data Science"] =
    "---\n" ++ "current_course: \"" ++ "MSDS 692" ++ "\"" ++ "\n" ++
      "current_semester: \"" ++ pyTitle "summer" ++ " " ++ "2025" ++ "\"" ++
      "\n---\n\n## About Me\n\nSome intro text.\n" ++ "\n" ++
      mkNewSection "MSDS 692" "I" "New" "summer" "2025" ["Data Science"] "" "u1" ++ "\n## Contact\n" ++ "\nemail") ∧
    ((pyIn "msds692" (pyLower "msds692") = true ∧
     (([] : List (String × String × String)).any (fun pr => pr.1 == "MSDS 692")) = false ∧
     pyIn "\n## Contact\n"
       ("---\n" ++ "current_course: \"" ++ "MSDS 690" ++ "\"" ++ "\n" ++
        "current_semester: \"" ++ "Spring 2025" ++ "\"" ++
        "\n---\n\n## About Me\n\nSome intro text.") = false ∧
     pyRstrip
       ("---\n" ++ "current_course: \"" ++ "MSDS 690" ++ "\"" ++ "\n" ++
        "current_semester: \"" ++ "Spring 2025" ++ "\"" ++
        "\n---\n\n## About Me\n\nSome intro text.") =
       "---\n" ++ "current_course: \"" ++ "MSDS 690" ++ "\"" ++ "\n" ++
        "current_semester: \"" ++ "Spring 2025" ++ "\"" ++
        "\n---\n\n## About Me\n\nSome intro text." ∧
     (∀ ch ∈ ("MSDS 690" : String).data, ch ≠ '"' ∧ ch ≠ '\n') ∧
     (∀ ch ∈ ("Spring 2025" : String).data, ch ≠ '"' ∧ ch ≠ '\n') ∧
     noStartIn "current_course: \"" "---\n"
       ("current_course: \"" ++ "MSDS 690" ++ "\"" ++ "\n" ++ "current_semester: \"" ++
        "Spring 2025" ++ "\"" ++ "\n---\n\n## About Me\n\nSome intro text." ++ "\n\n" ++
        mkNewSection "MSDS 692" "I" "New" "summer" "2025" ["Data Science"] "" "u1") ∧
     noStartIn "current_course: \""
       ("\n" ++ "current_semester: \"" ++ "Spring 2025" ++ "\"" ++
        "\n---\n\n## About Me\n\nSome intro text." ++ "\n\n" ++
        mkNewSection "MSDS 692" "I" "New" "summer" "2025" ["Data Science"] "" "u1") "" ∧
     noStartIn "current_semester: \""
       ("---\n" ++ "current_course: \"" ++ "MSDS 692" ++ "\"" ++ "\n")
       ("current_semester: \"" ++ "Spring 2025" ++ "\"" ++
        "\n---\n\n## About Me\n\nSome intro text." ++ "\n\n" ++
        mkNewSection "MSDS 692" "I" "New" "summer" "2025" ["Data Science"] "" "u1") ∧
     noStartIn "current_semester: \""
       ("\n---\n\n## About Me\n\nSome intro text." ++ "\n\n" ++
        mkNewSection "MSDS 692" "I" "New" "summer" "2025" ["Data Science"] "" "u1") "") ∧
    update_existing_profile
      ("---\n" ++ "current_course: \"" ++ "MSDS 690" ++ "\"" ++ "\n" ++
        "current_semester: \"" ++ "Spring 2025" ++ "\"" ++
        "\n---\n\n## About Me\n\nSome intro text.")
      [] "u1" "" "msds692" "summer" "2025" "I" "New" ["Data Science"] =
    "---\n" ++ "current_course: \"" ++ "MSDS 692" ++ "\"" ++ "\n" ++
      "current_semester: \"" ++ pyTitle "summer" ++ " " ++ "2025" ++ "\"" ++
      "\n---\n\n## About Me\n\nSome intro text." ++ "\n\n" ++
      mkNewSection "MSDS 692" "I" "New" "summer" "2025" ["Data Science"] "" "u1") :=
  ⟨⟨⟨by decide, by decide, by decide, by decide, by decide, by decide, by decide, by decide,
    by decide, by decide, by decide⟩,
   c1_frame_with_field_updates.1 "---\n" "MSDS 690" "\n" "Spring 2025"
     "\n---\n\n## About Me\n\nSome intro text.\n\n" "**Title:** Old\n"
     "Contact\n\nemail" [("MSDS 692", "I", "x")] "u1" "" "msds692" "summer" "2025" "I" "New"
     ["Data Science"] (by decide) (by decide) (by decide) (by decide) (by decide) (by decide)
     (by decide) (by decide) (by decide) (by decide) (by decide)⟩,
   ⟨⟨by decide, by decide, by decide, by decide, by decide, by decide, by decide, by decide,
    by decide, by decide⟩,
   c1_frame_with_field_updates.2.1 "---\n" "MSDS 690" "\n" "Spring 2025"
     "\n---\n\n## About Me\n\nSome intro text.\n" "\nemail" [] "u1" "" "msds692" "summer"
     "2025" "I" "New" ["Data Science"] (by decide) (by decide) (by decide) (by decide)
     (by decide) (by decide) (by decide) (by decide) (by decide) (by decide)⟩,
   ⟨⟨by decide, by decide, by decide, by decide, by decide, by decide, by decide, by decide,
    by decide, by decide⟩,
   c1_frame_with_field_updates.2.2 "---\n" "MSDS 690" "\n" "Spring 2025"
     "\n---\n\n## About Me\n\nSome intro text." [] "u1" "" "msds692" "summer" "2025" "I" "New"
     ["Data Science"] (by decide) (by decide) (by decide) (by decide) (by decide) (by decide)
     (by decide) (by decide) (by decide) (by decide)⟩⟩


/-- C3 (witness). -/
theorem c3_header_failure_fallback_witness :
    ((∀ q, q < ("\nkey: [\n" : String).data.length →
      startsL "---".data (("\nkey: [\n" : String).data.drop q ++
        ("---" ++ "Body").data) = false) ∧
      (fun (_ : String) => (none : Option (List (String × String)))) "\nkey: [\n" = none) ∧
    parse_markdown_profile (fun _ => none) ("---" ++ "\nkey: [\n" ++ "---" ++ "Body") =
      ([], pyStrip "Body") :=
  ⟨⟨by decide, rfl⟩,
   c3_header_failure_fallback (fun _ => none) "\nkey: [\n" "Body" (by decide) rfl⟩

end Regis
